import Mathlib

set_option maxRecDepth 8000
set_option linter.unusedVariables false

namespace SPIRV

/-! Shallow embedding of the SPIR-V capability/extension requirement-resolution
engine of the LLVM-SPIRV-Backend repository: the capability metadata table of
`SPIRVEnums.h`, the closure algorithm and target-environment profile of
`SPIRVSubtarget.cpp`, and the per-instruction requirement mapper of
`SPIRVAddRequirementsPass.cpp`.  Capabilities, extensions, decorations and the
other enumerations are represented by their numeric ids from the tables. -/

/-- Format version numbers as 32-bit integers 0|Maj|Min|Rev
(`v` in SPIRVSubtarget.cpp). -/
def mkVer (Maj Min Rev : Nat) : Nat := Maj * 65536 + Min * 256 + Rev

/-- Compare version numbers, but allow 0 to mean unspecified
(`isAtLeastVer` in SPIRVSubtarget.cpp). -/
def isAtLeastVer (target verToCompareTo : Nat) : Bool :=
  target == 0 || target ≥ verToCompareTo

/-- Extension ids for the extensions named in the metadata tables
(SPIRVExtensions.h is not under src/; the ids are arbitrary distinct codes). -/
def SPV_KHR_shader_ballot : Nat := 0
def SPV_KHR_subgroup_vote : Nat := 1
def SPV_KHR_16bit_storeage : Nat := 2
def SPV_KHR_device_group : Nat := 3
def SPV_KHR_multiview : Nat := 4
def SPV_KHR_variable_pointers : Nat := 5
def SPV_KHR_shader_atomic_counter_ops : Nat := 6
def SPV_KHR_post_depth_coverage : Nat := 7
def SPV_KHR_8bit_storage : Nat := 8
def SPV_KHR_float_controls : Nat := 9
def SPV_KHR_no_integer_wrap_decoration : Nat := 10
def SPV_KHR_shader_draw_parameters : Nat := 11
def SPV_AMD_shader_trinary_minmax : Nat := 12

/-- The capability metadata table `DEF_Capability` of SPIRVEnums.h, in
declaration order.  Each row is (id, direct prerequisite capabilities,
required extensions, MinVer, MaxVer). -/
def capTable : List (Nat × List Nat × List Nat × Nat × Nat) := [
  (0, [], [], 0, 0),            -- Matrix
  (1, [0], [], 0, 0),           -- Shader
  (2, [1], [], 0, 0),           -- Geometry
  (3, [1], [], 0, 0),           -- Tessellation
  (4, [], [], 0, 0),            -- Addresses
  (5, [], [], 0, 0),            -- Linkage
  (6, [], [], 0, 0),            -- Kernel
  (7, [6], [], 0, 0),           -- Vector16
  (8, [6], [], 0, 0),           -- Float16Buffer
  (9, [], [], 0, 0),            -- Float16
  (10, [], [], 0, 0),           -- Float64
  (11, [], [], 0, 0),           -- Int64
  (12, [11], [], 0, 0),         -- Int64Atomics
  (13, [6], [], 0, 0),          -- ImageBasic
  (14, [13], [], 0, 0),         -- ImageReadWrite
  (15, [13], [], 0, 0),         -- ImageMipmap
  (17, [6], [], 0, 0),          -- Pipes
  (18, [], [], 0, 0),           -- Groups
  (19, [], [], 0, 0),           -- DeviceEnqueue
  (20, [6], [], 0, 0),          -- LiteralSampler
  (21, [1], [], 0, 0),          -- AtomicStorage
  (22, [], [], 0, 0),           -- Int16
  (23, [3], [], 0, 0),          -- TessellationPointSize
  (24, [2], [], 0, 0),          -- GeometryPointSize
  (25, [1], [], 0, 0),          -- ImageGatherExtended
  (27, [1], [], 0, 0),          -- StorageImageMultisample
  (28, [1], [], 0, 0),          -- UniformBufferArrayDynamicIndexing
  (29, [1], [], 0, 0),          -- SampledImageArrayDymnamicIndexing
  (32, [1], [], 0, 0),          -- ClipDistance
  (33, [1], [], 0, 0),          -- CullDistance
  (34, [45], [], 0, 0),         -- ImageCubeArray
  (35, [1], [], 0, 0),          -- SampleRateShading
  (36, [37], [], 0, 0),         -- ImageRect
  (37, [1], [], 0, 0),          -- SampledRect
  (38, [4], [], 0, 0),          -- GenericPointer
  (39, [], [], 0, 0),           -- Int8
  (40, [1], [], 0, 0),          -- InputAttachment
  (41, [1], [], 0, 0),          -- SparseResidency
  (42, [1], [], 0, 0),          -- MinLod
  (43, [], [], 0, 0),           -- Sampled1D
  (44, [43], [], 0, 0),         -- Image1D
  (45, [1], [], 0, 0),          -- SampledCubeArray
  (46, [], [], 0, 0),           -- SampledBuffer
  (47, [46], [], 0, 0),         -- ImageBuffer
  (48, [1], [], 0, 0),          -- ImageMSArray
  (49, [1], [], 0, 0),          -- StorageImageExtendedFormats
  (50, [1], [], 0, 0),          -- ImageQuery
  (51, [1], [], 0, 0),          -- DerivativeControl
  (52, [1], [], 0, 0),          -- InterpolationFunction
  (53, [1], [], 0, 0),          -- TransformFeedback
  (54, [2], [], 0, 0),          -- GeometryStreams
  (55, [1], [], 0, 0),          -- StorageImageReadWithoutFormat
  (56, [1], [], 0, 0),          -- StorageImageWriteWithoutFormat
  (57, [2], [], 0, 0),          -- MultiViewport
  (58, [19], [], 0x10100, 0),   -- SubgroupDispatch
  (59, [6], [], 0x10100, 0),    -- NamedBarrier
  (60, [17], [], 0x10100, 0),   -- PipeStorage
  (61, [], [], 0x10300, 0),     -- GroupNonUniform
  (62, [61], [], 0x10300, 0),   -- GroupNonUniformVote
  (63, [61], [], 0x10300, 0),   -- GroupNonUniformArithmetic
  (64, [61], [], 0x10300, 0),   -- GroupNonUniformBallot
  (65, [61], [], 0x10300, 0),   -- GroupNonUniformShuffle
  (66, [61], [], 0x10300, 0),   -- GroupNonUniformShuffleRelative
  (67, [61], [], 0x10300, 0),   -- GroupNonUniformClustered
  (68, [61], [], 0x10300, 0),   -- GroupNonUniformQuad
  (4423, [], [SPV_KHR_shader_ballot], 0, 0),            -- SubgroupBallotKHR
  (4427, [1], [SPV_KHR_shader_draw_parameters], 0x10300, 0), -- DrawParameters
  (4431, [], [SPV_KHR_subgroup_vote], 0, 0),            -- SubgroupVoteKHR
  (4433, [], [SPV_KHR_16bit_storeage], 0x10300, 0),     -- StorageBuffer16BitAccess
  (4434, [4433], [SPV_KHR_16bit_storeage], 0x10300, 0), -- StorageUniform16
  (4435, [], [SPV_KHR_16bit_storeage], 0x10300, 0),     -- StoragePushConstant16
  (4436, [], [SPV_KHR_16bit_storeage], 0x10300, 0),     -- StorageInputOutput16
  (4437, [], [SPV_KHR_device_group], 0x10300, 0),       -- DeviceGroup
  (4439, [1], [SPV_KHR_multiview], 0x10300, 0),         -- MultiView
  (4441, [1], [SPV_KHR_variable_pointers], 0x10300, 0), -- VariablePointersStorageBuffer
  (4442, [4441], [SPV_KHR_variable_pointers], 0x10300, 0), -- VariablePointers
  (4445, [], [SPV_KHR_shader_atomic_counter_ops], 0, 0), -- AtomicStorageOps
  (4447, [], [SPV_KHR_post_depth_coverage], 0, 0),      -- SampleMaskPostDepthCoverage
  (4448, [], [SPV_KHR_8bit_storage], 0, 0),             -- StorageBuffer8BitAccess
  (4449, [4448], [SPV_KHR_8bit_storage], 0, 0),         -- UniformAndStorageBuffer8BitAccess
  (4450, [], [SPV_KHR_8bit_storage], 0, 0),             -- StoragePushConstant8
  (4464, [], [SPV_KHR_float_controls], 0x10400, 0),     -- DenormPreserve
  (4465, [], [SPV_KHR_float_controls], 0x10400, 0),     -- DenormFlushToZero
  (4466, [], [SPV_KHR_float_controls], 0x10400, 0),     -- SignedZeroInfNanPreserve
  (4467, [], [SPV_KHR_float_controls], 0x10400, 0),     -- RoundingModeRTE
  (4468, [], [SPV_KHR_float_controls], 0x10400, 0),     -- RoundingModeRTZ
  (5008, [1], [], 0, 0),        -- Float16ImageAMD
  (5009, [1], [], 0, 0),        -- ImageGatherBiasLodAMD
  (5010, [1], [], 0, 0),        -- FragmentMaskAMD
  (5013, [1], [], 0, 0),        -- StencilExportEXT
  (5015, [1], [], 0, 0),        -- ImageReadWriteLodAMD
  (5249, [35], [], 0, 0),       -- SampleMaskOverrideCoverageNV
  (5251, [2], [], 0, 0),        -- GeometryShaderPassthroughNV
  (5254, [57], [], 0, 0),       -- ShaderViewportIndexLayerEXT
  (5255, [5254], [], 0, 0),     -- ShaderViewportMaskNV
  (5259, [5255], [], 0, 0),     -- ShaderStereoViewNV
  (5260, [4439], [], 0, 0),     -- PerViewAttributesNV
  (5265, [1], [], 0, 0),        -- FragmentFullyCoveredEXT
  (5266, [1], [], 0, 0),        -- MeshShadingNV
  (5301, [1], [], 0, 0),        -- ShaderNonUniformEXT
  (5302, [1], [], 0, 0),        -- RuntimeDescriptorArrayEXT
  (5303, [40], [], 0, 0),       -- InputAttachmentArrayDynamicIndexingEXT
  (5304, [46], [], 0, 0),       -- UniformTexelBufferArrayDynamicIndexingEXT
  (5305, [47], [], 0, 0),       -- StorageTexelBufferArrayDynamicIndexingEXT
  (5306, [5301], [], 0, 0),     -- UniformBufferArrayNonUniformIndexingEXT
  (5307, [5301], [], 0, 0),     -- SampledImageArrayNonUniformIndexingEXT
  (5308, [5301], [], 0, 0),     -- StorageBufferArrayNonUniformIndexingEXT
  (5309, [5301], [], 0, 0),     -- StorageImageArrayNonUniformIndexingEXT
  (5310, [40, 5301], [], 0, 0), -- InputAttachmentArrayNonUniformIndexingEXT
  (5311, [46, 5301], [], 0, 0), -- UniformTexelBufferArrayNonUniformIndexingEXT
  (5312, [47, 5301], [], 0, 0), -- StorageTexelBufferArrayNonUniformIndexingEXT
  (5340, [1], [], 0, 0),        -- RayTracingNV
  (5568, [], [], 0, 0),         -- SubgroupShuffleINTEL
  (5569, [], [], 0, 0),         -- SubgroupBufferBlockIOINTEL
  (5570, [], [], 0, 0),         -- SubgroupImageBlockIOINTEL
  (5579, [], [], 0, 0),         -- SubgroupImageMediaBlockIOINTEL
  (5696, [], [], 0, 0),         -- SubgroupAvcMotionEstimationINTEL
  (5697, [], [], 0, 0),         -- SubgroupAvcMotionEstimationIntraINTEL
  (5698, [], [], 0, 0),         -- SubgroupAvcMotionEstimationChromaINTEL
  (5297, [], [], 0, 0),         -- GroupNonUniformPartitionedNV
  (5345, [], [], 0, 0),         -- VulkanMemoryModelKHR
  (5346, [], [], 0, 0),         -- VulkanMemoryModelDeviceScopeKHR
  (5282, [], [], 0, 0),         -- ImageFootprintNV
  (5284, [], [], 0, 0),         -- FragmentBarycentricNV
  (5288, [], [], 0, 0),         -- ComputeDerivativeGroupQuadsNV
  (5350, [], [], 0, 0),         -- ComputeDerivativeGroupLinearNV
  (5291, [1], [], 0, 0),        -- FragmentDensityEXT
  (5347, [1], [], 0, 0),        -- PhysicalStorageBufferAddresses
  (5357, [1], [], 0, 0)]        -- CooperativeMatrixNV

/-- Metadata row of a capability: (prerequisites, extensions, MinVer, MaxVer);
ids outside the table have the empty row. -/
def capRow (c : Nat) : List Nat × List Nat × Nat × Nat :=
  (capTable.lookup c).getD ([], [], 0, 0)

/-- Direct prerequisite capabilities of a capability (the `Caps` column of
`DEF_Capability`, used by `enableFeatureCapabilities`). -/
def capPrereqs (c : Nat) : List Nat := (capRow c).1

/-- All capability ids, in the declaration order of `DEF_Capability` (the order
in which `updateCapabilitiesFromFeatures` visits them). -/
def allCaps : List Nat := capTable.map Prod.fst

/-- Fuel that is always sufficient for the closure recursion (proved below):
three steps per capability plus slack. -/
def capFuel : Nat := 3 * allCaps.length + 4

/-- The mutable capability state of `SPIRVSubtarget`: the per-capability
`HasXXX` feature flags (as the list of flagged ids) and the insertion-ordered
`availableCaps` set. -/
structure SubSt where
  has : List Nat
  avail : List Nat
deriving DecidableEq, Repr

/-- Shallow embedding of `SPIRVSubtarget::enableFeatureCapabilities` together
with the body of `SPIRVSubtarget::enableFeatureCapability` (SPIRVSubtarget.cpp):
for each capability of the list in order, if its `HasXXX` feature flag is set,
do nothing; otherwise set the flag, and if inserting the capability into
`availableCaps` succeeds, recursively enable its direct prerequisites.  The
fuel argument only bounds the recursion depth of the embedding (the C++
recursion is memoized by the feature flags); it is decremented at every step
so that the definition reduces by structural recursion. -/
def enableFeatureCapabilities : Nat → SubSt → List Nat → SubSt
  | 0, st, _ => st
  | _+1, st, [] => st
  | fuel+1, st, c :: cs =>
    if c ∈ st.has then enableFeatureCapabilities fuel st cs
    else if c ∈ st.avail then enableFeatureCapabilities fuel ⟨c :: st.has, st.avail⟩ cs
    else enableFeatureCapabilities fuel
      (enableFeatureCapabilities fuel ⟨c :: st.has, st.avail ++ [c]⟩ (capPrereqs c)) cs

/-- Shallow embedding of `SPIRVSubtarget::enableFeatureCapability`: enable one
capability (and, transitively, its prerequisites). -/
def enableFeatureCapability (fuel : Nat) (st : SubSt) (c : Nat) : SubSt :=
  enableFeatureCapabilities fuel st [c]

/-- Modelled from the spec: the closure operation `enableCapability(c,
enabledSet, graph)` of the Requirement Accumulator (spec 4.1/4.2), iterated
over a list of capabilities; the accumulator class `SPIRVRequirementHandler`
(SPIRVCapabilityUtils.h) is not under src/.  For each capability in order: if
it is already a member of the set, no-op; otherwise insert it and recursively
enable each direct prerequisite.  Fuel as in `enableFeatureCapabilities`. -/
def enableCapabilityList : Nat → List Nat → List Nat → List Nat
  | 0, s, _ => s
  | _+1, s, [] => s
  | fuel+1, s, c :: cs =>
    if c ∈ s then enableCapabilityList fuel s cs
    else enableCapabilityList fuel (enableCapabilityList fuel (s ++ [c]) (capPrereqs c)) cs

/-- Modelled from the spec: enable a single capability in the accumulator's
enabled set (spec 4.1). -/
def enableCapability (fuel : Nat) (s : List Nat) (c : Nat) : List Nat :=
  enableCapabilityList fuel s [c]

/-- The target triple fields consulted by `SPIRVSubtarget`'s constructor. -/
structure Triple where
  isSPIRVLogical : Bool
  isVulkanEnvironment : Bool
  isOpenCLEnvironment : Bool
deriving DecidableEq, Repr

/-- Shallow embedding of `computeTargetSPIRVVersion`: defaults to v1.4. -/
def computeTargetSPIRVVersion (TT : Triple) : Nat := mkVer 1 4 0

/-- Shallow embedding of `computeTargetOpenCLVersion`: v2.2, or 0 for Vulkan. -/
def computeTargetOpenCLVersion (TT : Triple) : Nat :=
  if TT.isVulkanEnvironment then 0 else mkVer 2 2 0

/-- Shallow embedding of `computeTargetVulkanVersion`: v1.1 for Vulkan, else 0. -/
def computeTargetVulkanVersion (TT : Triple) : Nat :=
  if TT.isVulkanEnvironment then mkVer 1 1 0 else 0

/-- Shallow embedding of `computeOpenCLImageSupport`: defaults to true. -/
def computeOpenCLImageSupport (TT : Triple) : Bool := true

/-- Shallow embedding of `computeOpenCLFullProfile`: defaults to true. -/
def computeOpenCLFullProfile (TT : Triple) : Bool := true

/-- Shallow embedding of `SPIRVSubtarget::initAvailableExtensions`. -/
def initAvailableExtensions (TT : Triple) : List Nat :=
  if TT.isVulkanEnvironment then [] else [SPV_KHR_no_integer_wrap_decoration]

/-- Shallow embedding of `SPIRVSubtarget::initAvailableCapabilities`: the set
of `HasXXX` feature flags raised for the environment (the ids, in the source's
textual order; the flags are unordered booleans in the C++). -/
def initAvailableCapabilities (isVulkan : Bool)
    (targetSPIRVVersion targetOpenCLVersion : Nat)
    (openCLFullProfile openCLImageSupport : Bool) : List Nat :=
  if isVulkan then
    -- Matrix, Shader, InputAttachment, Sampled1D, Image1D, SampledBuffer,
    -- ImageBuffer, ImageQuery, DerivativeControl
    [0, 1, 40, 43, 44, 46, 47, 50, 51]
  else
    -- Addresses, Float16Buffer, Int16, Int8, Kernel, Linkage, Vector16
    [4, 8, 22, 39, 6, 5, 7]
    ++ (if openCLFullProfile then [11] else [])  -- Int64
    ++ (if openCLImageSupport then
          -- ImageBasic, LiteralSampler, Image1D, SampledBuffer, ImageBuffer
          [13, 20, 44, 46, 47]
          ++ (if isAtLeastVer targetOpenCLVersion (mkVer 2 0 0) then [14]
              else [])                           -- ImageReadWrite
        else [])
    ++ (if isAtLeastVer targetSPIRVVersion (mkVer 1 1 0) &&
           isAtLeastVer targetOpenCLVersion (mkVer 2 2 0) then [60]
        else [])                                 -- PipeStorage
    ++ [9, 10]                                   -- Float16, Float64

/-- One table entry of `SPIRVSubtarget::updateCapabilitiesFromFeatures`: if
the capability's feature flag is set, insert it into `availableCaps` and (when
newly inserted) enable its prerequisites; otherwise, if `availableCaps` is
nonempty, erase it. -/
def updateCapabilityFromFeature (st : SubSt) (c : Nat) : SubSt :=
  if c ∈ st.has then
    if c ∈ st.avail then st
    else enableFeatureCapabilities capFuel ⟨st.has, st.avail ++ [c]⟩ (capPrereqs c)
  else if st.avail ≠ [] then ⟨st.has, st.avail.erase c⟩
  else st

/-- Shallow embedding of `SPIRVSubtarget::updateCapabilitiesFromFeatures`:
visit every capability in declaration order. -/
def updateCapabilitiesFromFeatures (st : SubSt) : SubSt :=
  allCaps.foldl updateCapabilityFromFeature st

/-- The fields of `SPIRVSubtarget` consulted by the requirement-resolution
engine (the Target Environment Profile). -/
structure SPIRVSubtarget where
  usesLogicalAddressing : Bool
  usesVulkanEnv : Bool
  usesOpenCLEnv : Bool
  targetSPIRVVersion : Nat
  targetOpenCLVersion : Nat
  targetVulkanVersion : Nat
  openCLFullProfile : Bool
  openCLImageSupport : Bool
  capSt : SubSt
  availableExtensions : List Nat
deriving DecidableEq, Repr

/-- Shallow embedding of the `SPIRVSubtarget` constructor: record the triple
projections and version defaults, raise the per-environment feature flags
(`initAvailableCapabilities`), then run `updateCapabilitiesFromFeatures` on an
empty `availableCaps`. -/
def mkSPIRVSubtarget (TT : Triple) : SPIRVSubtarget :=
  let spirvVer := computeTargetSPIRVVersion TT
  let oclVer := computeTargetOpenCLVersion TT
  let fullProfile := computeOpenCLFullProfile TT
  let imageSupport := computeOpenCLImageSupport TT
  { usesLogicalAddressing := TT.isSPIRVLogical
    usesVulkanEnv := TT.isVulkanEnvironment
    usesOpenCLEnv := TT.isOpenCLEnvironment
    targetSPIRVVersion := spirvVer
    targetOpenCLVersion := oclVer
    targetVulkanVersion := computeTargetVulkanVersion TT
    openCLFullProfile := fullProfile
    openCLImageSupport := imageSupport
    capSt := updateCapabilitiesFromFeatures
      ⟨initAvailableCapabilities TT.isVulkanEnvironment spirvVer oclVer
        fullProfile imageSupport, []⟩
    availableExtensions := initAvailableExtensions TT }

/-- Shallow embedding of `SPIRVSubtarget::canUseCapability`: membership in
`availableCaps`. -/
def canUseCapability (ST : SPIRVSubtarget) (c : Nat) : Bool :=
  c ∈ ST.capSt.avail

/-- Shallow embedding of `SPIRVSubtarget::canUseExtension`. -/
def canUseExtension (ST : SPIRVSubtarget) (e : Nat) : Bool :=
  e ∈ ST.availableExtensions

/-- Shallow embedding of `SPIRVSubtarget::isLogicalAddressing`. -/
def isLogicalAddressing (ST : SPIRVSubtarget) : Bool := ST.usesLogicalAddressing

/-- Shallow embedding of `SPIRVSubtarget::isKernel`. -/
def isKernel (ST : SPIRVSubtarget) : Bool :=
  ST.usesOpenCLEnv || !ST.usesLogicalAddressing

/-- Shallow embedding of `SPIRVSubtarget::isShader`. -/
def isShader (ST : SPIRVSubtarget) : Bool :=
  ST.usesVulkanEnv || ST.usesLogicalAddressing

/-- The decoration metadata table `DEF_Decoration` of SPIRVEnums.h: id,
capabilities, extensions, MinVer, MaxVer. -/
def decorationTable : List (Nat × List Nat × List Nat × Nat × Nat) := [
  (0, [1], [], 0, 0),       -- RelaxedPrecision
  (1, [1, 6], [], 0, 0),    -- SpecId
  (2, [1], [], 0, 0),       -- Block
  (3, [1], [], 0, 0),       -- BufferBlock
  (4, [0], [], 0, 0),       -- RowMajor
  (5, [0], [], 0, 0),       -- ColMajor
  (6, [1], [], 0, 0),       -- ArrayStride
  (7, [0], [], 0, 0),       -- MatrixStride
  (8, [1], [], 0, 0),       -- GLSLShared
  (9, [1], [], 0, 0),       -- GLSLPacked
  (10, [6], [], 0, 0),      -- CPacked
  (11, [], [], 0, 0),       -- BuiltIn
  (13, [1], [], 0, 0),      -- NoPerspective
  (14, [1], [], 0, 0),      -- Flat
  (15, [3], [], 0, 0),      -- Patch
  (16, [1], [], 0, 0),      -- Centroid
  (17, [35], [], 0, 0),     -- Sample
  (18, [1], [], 0, 0),      -- Invariant
  (19, [], [], 0, 0),       -- Restrict
  (20, [], [], 0, 0),       -- Aliased
  (21, [], [], 0, 0),       -- Volatile
  (22, [6], [], 0, 0),      -- Constant
  (23, [], [], 0, 0),       -- Coherent
  (24, [], [], 0, 0),       -- NonWritable
  (25, [], [], 0, 0),       -- NonReadable
  (26, [1], [], 0, 0),      -- Uniform
  (27, [1], [], 0, 0),      -- UniformId
  (28, [6], [], 0, 0),      -- SaturatedConversion
  (29, [54], [], 0, 0),     -- Stream
  (30, [1], [], 0, 0),      -- Location
  (31, [1], [], 0, 0),      -- Component
  (32, [1], [], 0, 0),      -- Index
  (33, [1], [], 0, 0),      -- Binding
  (34, [1], [], 0, 0),      -- DescriptorSet
  (35, [1], [], 0, 0),      -- Offset
  (36, [53], [], 0, 0),     -- XfbBuffer
  (37, [53], [], 0, 0),     -- XfbStride
  (38, [6], [], 0, 0),      -- FuncParamAttr
  (39, [], [], 0, 0),       -- FPRoundingMode
  (40, [6], [], 0, 0),      -- FPFastMathMode
  (41, [5], [], 0, 0),      -- LinkageAttributes
  (42, [1], [], 0, 0),      -- NoContraction
  (43, [40], [], 0, 0),     -- InputAttachmentIndex
  (44, [6], [], 0, 0),      -- Alignment
  (45, [4], [], 0, 0),      -- MaxByteOffset
  (46, [6], [], 0, 0),      -- AlignmentId
  (47, [4], [], 0, 0),      -- MaxByteOffsetId
  (4469, [], [SPV_KHR_no_integer_wrap_decoration], 0x10400, 0), -- NoSignedWrap
  (4470, [], [SPV_KHR_no_integer_wrap_decoration], 0x10400, 0), -- NoUnsignedWrap
  (4999, [], [], 0, 0),     -- ExplicitInterpAMD
  (5248, [5249], [], 0, 0), -- OverrideCoverageNV
  (5250, [5251], [], 0, 0), -- PassthroughNV
  (5252, [5255], [], 0, 0), -- ViewportRelativeNV
  (5256, [5259], [], 0, 0), -- SecondaryViewportRelativeNV
  (5271, [5266], [], 0, 0), -- PerPrimitiveNV
  (5272, [5266], [], 0, 0), -- PerViewNV
  (5273, [5284], [], 0, 0), -- PerVertexNV
  (5300, [5301], [], 0, 0), -- NonUniformEXT
  (5634, [], [], 0, 0),     -- CountBuffer
  (5635, [], [], 0, 0),     -- UserSemantic
  (5355, [5347], [], 0, 0), -- RestrictPointer
  (5356, [5347], [], 0, 0)] -- AliasedPointer

/-- The built-in metadata table `DEF_BuiltIn` of SPIRVEnums.h (id,
capabilities; no built-in carries extensions or version bounds). -/
def builtInTable : List (Nat × List Nat) := [
  (0, [1]),             -- Position
  (1, [1]),             -- PointSize
  (3, [32]),            -- ClipDistance
  (4, [33]),            -- CullDistance
  (5, [1]),             -- VertexId
  (6, [1]),             -- InstanceId
  (7, [2, 3, 5340]),    -- PrimitiveId
  (8, [2, 3]),          -- InvocationId
  (9, [2]),             -- Layer
  (10, [57]),           -- ViewportIndex
  (11, [3]),            -- TessLevelOuter
  (12, [3]),            -- TessLevelInner
  (13, [3]),            -- TessCoord
  (14, [3]),            -- PatchVertices
  (15, [1]),            -- FragCoord
  (16, [1]),            -- PointCoord
  (17, [1]),            -- FrontFacing
  (18, [35]),           -- SampleId
  (19, [35]),           -- SamplePosition
  (20, [1]),            -- SampleMask
  (22, [1]),            -- FragDepth
  (23, [1]),            -- HelperInvocation
  (24, []),             -- NumWorkGroups
  (25, []),             -- WorkgroupSize
  (26, []),             -- WorkgroupId
  (27, []),             -- LocalInvocationId
  (28, []),             -- GlobalInvocationId
  (29, []),             -- LocalInvocationIndex
  (30, [6]),            -- WorkDim
  (31, [6]),            -- GlobalSize
  (32, [6]),            -- EnqueuedWorkgroupSize
  (33, [6]),            -- GlobalOffset
  (34, [6]),            -- GlobalLinearId
  (36, [6, 61, 4423]),  -- SubgroupSize
  (37, [6]),            -- SubgroupMaxSize
  (38, [6, 61]),        -- NumSubgroups
  (39, [6]),            -- NumEnqueuedSubgroups
  (40, [6, 61]),        -- SubgroupId
  (41, [6, 61, 4423]),  -- SubgroupLocalInvocationId
  (42, [1]),            -- VertexIndex
  (43, [1]),            -- InstanceIndex
  (4416, [4423, 64]),   -- SubgroupEqMask
  (4417, [4423, 64]),   -- SubgroupGeMask
  (4418, [4423, 64]),   -- SubgroupGtMask
  (4419, [4423, 64]),   -- SubgroupLeMask
  (4420, [4423, 64]),   -- SubgroupLtMask
  (4424, [4427]),       -- BaseVertex
  (4425, [4427]),       -- BaseInstance
  (4426, [4427, 5266]), -- DrawIndex
  (4438, [4437]),       -- DeviceIndex
  (4440, [4439]),       -- ViewIndex
  (4492, []),           -- BaryCoordNoPerspAMD
  (4493, []),           -- BaryCoordNoPerspCentroidAMD
  (4494, []),           -- BaryCoordNoPerspSampleAMD
  (4495, []),           -- BaryCoordSmoothAMD
  (4496, []),           -- BaryCoordSmoothCentroid
  (4497, []),           -- BaryCoordSmoothSample
  (4498, []),           -- BaryCoordPullModel
  (5014, [5013]),       -- FragStencilRefEXT
  (5253, [5255, 5266]), -- ViewportMaskNV
  (5257, [5259]),       -- SecondaryPositionNV
  (5258, [5259]),       -- SecondaryViewportMaskNV
  (5261, [5260, 5266]), -- PositionPerViewNV
  (5262, [5260, 5266]), -- ViewportMaskPerViewNV
  (5264, [5265]),       -- FullyCoveredEXT
  (5274, [5266]),       -- TaskCountNV
  (5275, [5266]),       -- PrimitiveCountNV
  (5276, [5266]),       -- PrimitiveIndicesNV
  (5277, [5266]),       -- ClipDistancePerViewNV
  (5278, [5266]),       -- CullDistancePerViewNV
  (5279, [5266]),       -- LayerPerViewNV
  (5280, [5266]),       -- MeshViewCountNV
  (5281, [5266]),       -- MeshViewIndices
  (5286, [5284]),       -- BaryCoordNV
  (5287, [5284]),       -- BaryCoordNoPerspNV
  (5292, [5291]),       -- FragSizeEXT
  (5293, [5291]),       -- FragInvocationCountEXT
  (5319, [5340]),       -- LaunchIdNV
  (5320, [5340]),       -- LaunchSizeNV
  (5321, [5340]),       -- WorldRayOriginNV
  (5322, [5340]),       -- WorldRayDirectionNV
  (5323, [5340]),       -- ObjectRayOriginNV
  (5324, [5340]),       -- ObjectRayDirectionNV
  (5325, [5340]),       -- RayTminNV
  (5326, [5340]),       -- RayTmaxNV
  (5327, [5340]),       -- InstanceCustomIndexNV
  (5330, [5340]),       -- ObjectToWorldNV
  (5331, [5340]),       -- WorldToObjectNV
  (5332, [5340]),       -- HitTNV
  (5333, [5340]),       -- HitKindNV
  (5351, [5340])]       -- IncomingRayFlagsNV

/-- The storage-class metadata table `DEF_StorageClass` of SPIRVEnums.h. -/
def storageClassTable : List (Nat × List Nat) := [
  (0, []),              -- UniformConstant
  (1, []),              -- Input
  (2, [1]),             -- Uniform
  (3, [1]),             -- Output
  (4, []),              -- Workgroup
  (5, []),              -- CrossWorkgroup
  (6, [1]),             -- Private
  (7, []),              -- Function
  (8, [38]),            -- Generic
  (9, [1]),             -- PushConstant
  (10, [21]),           -- AtomicCounter
  (11, []),             -- Image
  (12, [1]),            -- StorageBuffer
  (5328, [5340]),       -- CallableDataNV
  (5329, [5340]),       -- IncomingCallableDataNV
  (5338, [5340]),       -- RayPayloadNV
  (5339, [5340]),       -- HitAttributeNV
  (5342, [5340]),       -- IncomingRayPayloadNV
  (5343, [5340]),       -- ShaderRecordBufferNV
  (5349, [5347])]       -- PhysicalStorageBuffer

/-- The addressing-model metadata table `DEF_AddressingModel` of SPIRVEnums.h. -/
def addressingModelTable : List (Nat × List Nat) := [
  (0, []),              -- Logical
  (1, [4]),             -- Physical32
  (2, [4]),             -- Physical64
  (5348, [5347])]       -- PhysicalStorageBuffer64

/-- The execution-model metadata table `DEF_ExecutionModel` of SPIRVEnums.h. -/
def executionModelTable : List (Nat × List Nat) := [
  (0, [1]),             -- Vertex
  (1, [3]),             -- TessellationControl
  (2, [3]),             -- TessellationEvaluation
  (3, [2]),             -- Geometry
  (4, [1]),             -- Fragment
  (5, [1]),             -- GLCompute
  (6, [6]),             -- Kernel
  (5267, [5266]),       -- TaskNV
  (5268, [5266]),       -- MeshNV
  (5313, [5340]),       -- RayGenerationNV
  (5314, [5340]),       -- IntersectionNV
  (5315, [5340]),       -- AnyHitNV
  (5316, [5340]),       -- ClosestHitNV
  (5317, [5340]),       -- MissNV
  (5318, [5340])]       -- CallableNV

/-- The memory-model metadata table `DEF_MemoryModel` of SPIRVEnums.h. -/
def memoryModelTable : List (Nat × List Nat) := [
  (0, [1]),             -- Simple
  (1, [1]),             -- GLSL450
  (2, [6]),             -- OpenCL
  (3, [5345])]          -- VulkanKHR

/-- The execution-mode metadata table `DEF_ExecutionMode` of SPIRVEnums.h. -/
def executionModeTable : List (Nat × List Nat) := [
  (0, [2]),             -- Invocations
  (1, [3]),             -- SpacingEqual
  (2, [3]),             -- SpacingFractionalEven
  (3, [3]),             -- SpacingFractionalOdd
  (4, [3]),             -- VertexOrderCw
  (5, [3]),             -- VertexOrderCcw
  (6, [1]),             -- PixelCenterInteger
  (7, [1]),             -- OriginUpperLeft
  (8, [1]),             -- OriginLowerLeft
  (9, [1]),             -- EarlyFragmentTests
  (10, [3]),            -- PointMode
  (11, [53]),           -- Xfb
  (12, [1]),            -- DepthReplacing
  (14, [1]),            -- DepthGreater
  (15, [1]),            -- DepthLess
  (16, [1]),            -- DepthUnchanged
  (17, []),             -- LocalSize
  (18, [6]),            -- LocalSizeHint
  (19, [2]),            -- InputPoints
  (20, [2]),            -- InputLines
  (21, [2]),            -- InputLinesAdjacency
  (22, [2, 3]),         -- Triangles
  (23, [2]),            -- InputTrianglesAdjacency
  (24, [3]),            -- Quads
  (25, [3]),            -- Isolines
  (26, [2, 3, 5266]),   -- OutputVertices
  (27, [2, 5266]),      -- OutputPoints
  (28, [2]),            -- OutputLineStrip
  (29, [2]),            -- OutputTriangleStrip
  (30, [6]),            -- VecTypeHint
  (31, [6]),            -- ContractionOff
  (33, [6]),            -- Initializer
  (34, [6]),            -- Finalizer
  (35, [58]),           -- SubgroupSize
  (36, [58]),           -- SubgroupsPerWorkgroup
  (37, [58]),           -- SubgroupsPerWorkgroupId
  (38, []),             -- LocalSizeId
  (39, [6]),            -- LocalSizeHintId
  (4446, [4447]),       -- PostDepthCoverage
  (4459, [4464]),       -- DenormPreserve
  (4460, [4465]),       -- DenormFlushToZero
  (4461, [4466]),       -- SignedZeroInfNanPreserve
  (4462, [4467]),       -- RoundingModeRTE
  (4463, [4468]),       -- RoundingModeRTZ
  (5027, [5013]),       -- StencilRefReplacingEXT
  (5269, [5266]),       -- OutputLinesNV
  (5289, [5288]),       -- DerivativeGroupQuadsNV
  (5290, [5350]),       -- DerivativeGroupLinearNV
  (5298, [5266])]       -- OutputTrianglesNV

/-- The image-format metadata table `DEF_ImageFormat` of SPIRVEnums.h. -/
def imageFormatTable : List (Nat × List Nat) := [
  (0, []),              -- Unknown
  (1, [1]),             -- Rgba32f
  (2, [1]),             -- Rgba16f
  (3, [1]),             -- R32f
  (4, [1]),             -- Rgba8
  (5, [1]),             -- Rgba8Snorm
  (6, [49]),            -- Rg32f
  (7, [49]),            -- Rg16f
  (8, [49]),            -- R11fG11fB10f
  (9, [49]),            -- R16f
  (10, [49]),           -- Rgba16
  (11, [49]),           -- Rgb10A2
  (12, [49]),           -- Rg16
  (13, [49]),           -- Rg8
  (14, [49]),           -- R16
  (15, [49]),           -- R8
  (16, [49]),           -- Rgba16Snorm
  (17, [49]),           -- Rg16Snorm
  (18, [49]),           -- Rg8Snorm
  (19, [49]),           -- R16Snorm
  (20, [49]),           -- R8Snorm
  (21, [1]),            -- Rgba32i
  (22, [1]),            -- Rgba16i
  (23, [1]),            -- Rgba8i
  (24, [1]),            -- R32i
  (25, [49]),           -- Rg32i
  (26, [49]),           -- Rg16i
  (27, [49]),           -- Rg8i
  (28, [49]),           -- R16i
  (29, [49]),           -- R8i
  (30, [1]),            -- Rgba32ui
  (31, [1]),            -- Rgba16ui
  (32, [1]),            -- Rgba8ui
  (33, [1]),            -- R32ui
  (34, [49]),           -- Rgb10a2ui
  (35, [49]),           -- Rg32ui
  (36, [49]),           -- Rg16ui
  (37, [49]),           -- Rg8ui
  (38, [49]),           -- R16ui
  (39, [49])]           -- R8ui

/-- Error kinds of requirement resolution (spec section 7). -/
inductive Err where
  | unmetCapabilityRequirement
  | unmetExtensionRequirement
  | malformedInstruction
deriving DecidableEq, Repr

/-- Modelled from the spec: the per-function Requirement Accumulator
(`SPIRVRequirementHandler` of SPIRVCapabilityUtils.h, not under src/): the
insertion-ordered set of enabled capabilities and the insertion-ordered set of
required extensions. -/
structure RequirementHandler where
  caps : List Nat
  exts : List Nat
deriving DecidableEq, Repr

/-- Read-only snapshot `getMinimalCapabilities` of the accumulator. -/
def getMinimalCapabilities (r : RequirementHandler) : List Nat := r.caps

/-- Read-only snapshot `getExtensions` of the accumulator. -/
def getExtensions (r : RequirementHandler) : List Nat := r.exts

/-- A requirement resolution step: the error raised (if any) and the
accumulator state.  A raised error aborts resolution of the function; the
state component is the accumulator at the moment of the error. -/
abbrev ResolveResult : Type := Option Err × RequirementHandler

/-- Sequencing of resolution steps: an error freezes the state
(all-or-nothing abort, spec section 7). -/
def andThenR (x : ResolveResult) (f : RequirementHandler → ResolveResult) :
    ResolveResult :=
  match x with
  | (some e, r) => (some e, r)
  | (none, r) => f r

/-- A requirement bundle (spec section 3, EnumValue): alternative capability
sets (satisfying any one suffices), required extensions, and the
version-applicability window [minVer, maxVer] (0 = unbounded). -/
structure Requirement where
  altCaps : List (List Nat)
  exts : List Nat
  minVer : Nat
  maxVer : Nat
deriving DecidableEq, Repr

/-- Modelled from the spec: the requirement of a metadata row — each
capability of the row's `Caps` column is one alternative (any one suffices),
together with the row's extensions and version window (the generated
`SPIRVEnumRequirements` accessors are not under src/). -/
def rowToRequirement (row : List Nat × List Nat × Nat × Nat) : Requirement :=
  ⟨row.1.map (fun c => [c]), row.2.1, row.2.2.1, row.2.2.2⟩

/-- Modelled from the spec: `getDecorationRequirements`. -/
def getDecorationRequirements (d : Nat) : Requirement :=
  rowToRequirement ((decorationTable.lookup d).getD ([], [], 0, 0))

/-- Modelled from the spec: `getBuiltInRequirements`. -/
def getBuiltInRequirements (b : Nat) : Requirement :=
  rowToRequirement ((builtInTable.lookup b).getD [], [], 0, 0)

/-- Modelled from the spec: `getStorageClassRequirements`. -/
def getStorageClassRequirements (sc : Nat) : Requirement :=
  rowToRequirement ((storageClassTable.lookup sc).getD [], [], 0, 0)

/-- Modelled from the spec: `getAddressingModelRequirements`. -/
def getAddressingModelRequirements (a : Nat) : Requirement :=
  rowToRequirement ((addressingModelTable.lookup a).getD [], [], 0, 0)

/-- Modelled from the spec: `getExecutionModelRequirements`. -/
def getExecutionModelRequirements (e : Nat) : Requirement :=
  rowToRequirement ((executionModelTable.lookup e).getD [], [], 0, 0)

/-- Modelled from the spec: `getMemoryModelRequirements`. -/
def getMemoryModelRequirements (m : Nat) : Requirement :=
  rowToRequirement ((memoryModelTable.lookup m).getD [], [], 0, 0)

/-- Modelled from the spec: `getExecutionModeRequirements`. -/
def getExecutionModeRequirements (e : Nat) : Requirement :=
  rowToRequirement ((executionModeTable.lookup e).getD [], [], 0, 0)

/-- Modelled from the spec: `getImageFormatRequirements`. -/
def getImageFormatRequirements (f : Nat) : Requirement :=
  rowToRequirement ((imageFormatTable.lookup f).getD [], [], 0, 0)

/-- Modelled from the spec: the requirement of a single capability — the
capability itself, with the extensions and version window of its own metadata
row (used by the `addRequirements(Capability)` calls of the mapper). -/
def getCapabilityRequirements (c : Nat) : Requirement :=
  ⟨[[c]], (capRow c).2.1, (capRow c).2.2.1, (capRow c).2.2.2⟩

/-- Modelled from the spec: `addCapability(c)` of the Requirement Accumulator
(spec 4.2): enable `c` and, transitively, its prerequisites, in the
accumulator's enabled set. -/
def addCapability (r : RequirementHandler) (c : Nat) : RequirementHandler :=
  { r with caps := enableCapability capFuel r.caps c }

/-- Whether the negotiated target version falls inside the applicability
window [minVer, maxVer] (0 = unbounded); the lower comparison is the source's
`isAtLeastVer`. -/
def verInWindow (target minVer maxVer : Nat) : Bool :=
  isAtLeastVer target minVer && (maxVer == 0 || target ≤ maxVer)

/-- Modelled from the spec: add one required extension to the accumulator if
the Profile makes it available (the extension set is an insertion-ordered
set: a present member is not re-inserted), else fail with an unmet-extension
error. -/
def addExtension (ST : SPIRVSubtarget) (acc : ResolveResult) (e : Nat) :
    ResolveResult :=
  andThenR acc fun r1 =>
    if canUseExtension ST e then
      (none, if e ∈ r1.exts then r1 else { r1 with exts := r1.exts ++ [e] })
    else (some .unmetExtensionRequirement, r1)

/-- Modelled from the spec: the extension part of `addRequirements` (spec
4.2): if the target version falls outside the window, each extension is added
if available, else resolution fails with an unmet-extension error. -/
def addExtRequirements (ST : SPIRVSubtarget) (exts : List Nat)
    (minVer maxVer : Nat) (r : RequirementHandler) : ResolveResult :=
  if verInWindow ST.targetSPIRVVersion minVer maxVer then (none, r)
  else exts.foldl (addExtension ST) (none, r)

/-- Modelled from the spec: `addRequirements(alternativeSets, extensions,
minVersion, maxVersion)` of the Requirement Accumulator (spec 4.2): if any
alternative set is already fully enabled, the capability part is satisfied;
otherwise the first alternative whose every member is available in the Profile
is enabled via the closure operation; if none qualifies, resolution fails with
an unmet-capability error.  Independently, the extensions are version-gated by
`addExtRequirements`. -/
def addRequirements (ST : SPIRVSubtarget) (rq : Requirement)
    (r : RequirementHandler) : ResolveResult :=
  andThenR
    (if rq.altCaps.isEmpty then (none, r)
     else if rq.altCaps.any (fun a => a.all (fun c => c ∈ r.caps)) then (none, r)
     else
       match rq.altCaps.find? (fun a => a.all (fun c => canUseCapability ST c)) with
       | some a => (none, { r with caps := enableCapabilityList capFuel r.caps a })
       | none => (some .unmetCapabilityRequirement, r))
    (addExtRequirements ST rq.exts rq.minVer rq.maxVer)

/-- The instruction opcodes distinguished by `addInstrRequirements`
(SPIRVAddRequirementsPass.cpp); `OpOther` stands for every opcode the switch
does not mention. -/
inductive Opcode where
  | OpMemoryModel | OpEntryPoint | OpExecutionMode | OpExecutionModeId
  | OpTypeMatrix | OpTypeInt | OpTypeFloat | OpTypeVector | OpTypePointer
  | OpTypeRuntimeArray | OpTypeOpaque | OpTypeEvent | OpTypePipe
  | OpTypeReserveId | OpTypeDeviceEvent | OpTypeQueue
  | OpDecorate | OpDecorateId | OpDecorateString
  | OpMemberDecorate | OpMemberDecorateString
  | OpInBoundsPtrAccessChain | OpConstantSampler | OpTypeImage | OpTypeSampler
  | OpTypeForwardPointer
  | OpSelect | OpPhi | OpFunctionCall | OpPtrAccessChain | OpLoad
  | OpConstantNull
  | OpOther
deriving DecidableEq, Repr

/-- A machine instruction as consulted by the mapper: opcode and the ordered
operand list (immediates and register ids, uniformly numeric). -/
structure Instr where
  opcode : Opcode
  operands : List Nat
deriving DecidableEq, Repr

/-- Fetch operand `i`; an access past the operand list is a
malformed-instruction fault. -/
def withOperand (MI : Instr) (i : Nat) (r : RequirementHandler)
    (f : Nat → ResolveResult) : ResolveResult :=
  match MI.operands[i]? with
  | some x => f x
  | none => (some .malformedInstruction, r)

/-- Shallow embedding of `addVariablePtrInstrReqs`
(SPIRVAddRequirementsPass.cpp): under logical addressing, add the
VariablePointers capability when the instruction's type operand (operand 1) is
defined by an OpTypePointer instruction.  `defOpcode` is the injected
def-use registry (`MRI.getVRegDef(reg)->getOpcode()`). -/
def addVariablePtrInstrReqs (ST : SPIRVSubtarget) (defOpcode : Nat → Opcode)
    (MI : Instr) (r : RequirementHandler) : ResolveResult :=
  if isLogicalAddressing ST then
    withOperand MI 1 r fun t =>
      if defOpcode t = Opcode.OpTypePointer then
        (none, addCapability r 4442)  -- VariablePointers
      else (none, r)
  else (none, r)

/-- Shallow embedding of `addOpDecorateReqs` (SPIRVAddRequirementsPass.cpp):
add the requirements of the decoration kind at operand `decIndex`; if the kind
is BuiltIn (11), additionally add the requirements of the built-in selected by
the next operand. -/
def addOpDecorateReqs (ST : SPIRVSubtarget) (MI : Instr) (decIndex : Nat)
    (r : RequirementHandler) : ResolveResult :=
  withOperand MI decIndex r fun decOp =>
    andThenR (addRequirements ST (getDecorationRequirements decOp) r) fun r1 =>
      if decOp = 11 then
        withOperand MI (decIndex + 1) r1 fun builtInOp =>
          addRequirements ST (getBuiltInRequirements builtInOp) r1
      else (none, r1)

/-- The dimensionality switch of `addOpTypeImageReqs`
(SPIRVAddRequirementsPass.cpp): dimension-specific capability requirements,
combined with the arrayed / multisampled / sampler-presence flags; a value
outside the `Dim` enumeration matches no switch case and adds nothing. -/
def addDimReqs (ST : SPIRVSubtarget) (dim : Nat)
    (isArrayed isMultisampled noSampler : Bool) (r1 : RequirementHandler) :
    ResolveResult :=
  match dim with
  | 0 =>  -- Dim 1D
    addRequirements ST (getCapabilityRequirements (if noSampler then 44 else 43)) r1
  | 1 =>  -- Dim 2D
    if isMultisampled && noSampler then
      addRequirements ST (getCapabilityRequirements 48) r1
    else (none, r1)
  | 2 => (none, r1)  -- Dim 3D
  | 3 =>  -- Dim Cube
    andThenR (addRequirements ST (getCapabilityRequirements 1) r1) fun r2 =>
      if isArrayed then
        addRequirements ST (getCapabilityRequirements (if noSampler then 34 else 45)) r2
      else (none, r2)
  | 4 =>  -- Dim Rect
    addRequirements ST (getCapabilityRequirements (if noSampler then 36 else 37)) r1
  | 5 =>  -- Dim Buffer
    addRequirements ST (getCapabilityRequirements (if noSampler then 47 else 46)) r1
  | 6 =>  -- Dim SubpassData
    addRequirements ST (getCapabilityRequirements 40) r1
  | _ => (none, r1)

/-- Shallow embedding of `addOpTypeImageReqs` (SPIRVAddRequirementsPass.cpp):
fewer than 8 operands is a malformed-instruction fault (the source `assert`);
otherwise the requirements follow the image format (operand 7), the
dimensionality (operand 2) combined with the arrayed / multisampled / sampled
flags (operands 4, 5, 6), and, for kernel-flavored targets, the optional
access qualifier (operand 8, only when more than 8 operands are present). -/
def addOpTypeImageReqs (ST : SPIRVSubtarget) (MI : Instr)
    (r : RequirementHandler) : ResolveResult :=
  if MI.operands.length < 8 then (some .malformedInstruction, r)
  else
    withOperand MI 7 r fun imgFormatOp =>
    andThenR (addRequirements ST (getImageFormatRequirements imgFormatOp) r) fun r1 =>
    withOperand MI 4 r1 fun arrayedOp =>
    withOperand MI 5 r1 fun msOp =>
    withOperand MI 6 r1 fun sampledOp =>
    let isArrayed := arrayedOp = 1
    let isMultisampled := msOp = 1
    let noSampler := sampledOp = 2
    withOperand MI 2 r1 fun dim =>
    andThenR (addDimReqs ST dim isArrayed isMultisampled noSampler r1) fun r2 =>
    if isKernel ST then
      if MI.operands.length > 8 then
        withOperand MI 8 r2 fun accessQual =>
          if accessQual = 2 then  -- AccessQualifier ReadWrite
            addRequirements ST (getCapabilityRequirements 14) r2
          else addRequirements ST (getCapabilityRequirements 13) r2
      else addRequirements ST (getCapabilityRequirements 13) r2
    else (none, r2)

/-- Shallow embedding of `addInstrRequirements`
(SPIRVAddRequirementsPass.cpp): the opcode dispatch adding the requirements of
one instruction to the accumulator. -/
def addInstrRequirements (ST : SPIRVSubtarget) (defOpcode : Nat → Opcode)
    (MI : Instr) (r : RequirementHandler) : ResolveResult :=
  match MI.opcode with
  | .OpMemoryModel =>
    withOperand MI 0 r fun addr =>
      andThenR (addRequirements ST (getAddressingModelRequirements addr) r) fun r1 =>
        withOperand MI 1 r1 fun mem =>
          addRequirements ST (getMemoryModelRequirements mem) r1
  | .OpEntryPoint =>
    withOperand MI 0 r fun exe =>
      addRequirements ST (getExecutionModelRequirements exe) r
  | .OpExecutionMode | .OpExecutionModeId =>
    withOperand MI 1 r fun exe =>
      addRequirements ST (getExecutionModeRequirements exe) r
  | .OpTypeMatrix => (none, addCapability r 0)  -- Matrix
  | .OpTypeInt =>
    withOperand MI 1 r fun bitWidth =>
      if bitWidth = 64 then (none, addCapability r 11)       -- Int64
      else if bitWidth = 16 then (none, addCapability r 22)  -- Int16
      else if bitWidth = 8 then (none, addCapability r 39)   -- Int8
      else (none, r)
  | .OpTypeFloat =>
    withOperand MI 1 r fun bitWidth =>
      if bitWidth = 64 then (none, addCapability r 10)       -- Float64
      else if bitWidth = 16 then (none, addCapability r 9)   -- Float16
      else (none, r)
  | .OpTypeVector =>
    withOperand MI 2 r fun numComponents =>
      if numComponents = 8 ∨ numComponents = 16 then
        (none, addCapability r 7)                            -- Vector16
      else (none, r)
  | .OpTypePointer =>
    withOperand MI 1 r fun sc =>
      addRequirements ST (getStorageClassRequirements sc) r
  | .OpTypeRuntimeArray => (none, addCapability r 1)         -- Shader
  | .OpTypeOpaque | .OpTypeEvent => (none, addCapability r 6)  -- Kernel
  | .OpTypePipe | .OpTypeReserveId => (none, addCapability r 17)  -- Pipes
  | .OpTypeDeviceEvent | .OpTypeQueue => (none, addCapability r 19)  -- DeviceEnqueue
  | .OpDecorate | .OpDecorateId | .OpDecorateString =>
    addOpDecorateReqs ST MI 1 r
  | .OpMemberDecorate | .OpMemberDecorateString =>
    addOpDecorateReqs ST MI 2 r
  | .OpInBoundsPtrAccessChain => (none, addCapability r 4)   -- Addresses
  | .OpConstantSampler => (none, addCapability r 20)         -- LiteralSampler
  | .OpTypeImage => addOpTypeImageReqs ST MI r
  | .OpTypeSampler => (none, addCapability r 13)             -- ImageBasic
  | .OpTypeForwardPointer =>
    if isKernel ST then (none, addCapability r 4)            -- Addresses
    else (none, addCapability r 5347)  -- PhysicalStorageBufferAddresses
  | .OpSelect | .OpPhi | .OpFunctionCall | .OpPtrAccessChain | .OpLoad
  | .OpConstantNull =>
    addVariablePtrInstrReqs ST defOpcode MI r
  | .OpOther => (none, r)

/-- One step of the Resolution Driver's scan (`runOnMachineFunction`): feed
the instruction to the mapper unless an earlier error aborted resolution. -/
def processInstr (ST : SPIRVSubtarget) (defOpcode : Nat → Opcode)
    (acc : ResolveResult) (MI : Instr) : ResolveResult :=
  andThenR acc (addInstrRequirements ST defOpcode MI)

/-- Shallow embedding of `SPIRVAddRequirements::runOnMachineFunction`: scan
every instruction of the function in order with a fresh accumulator; the
result holds the minimal capability list and extension list to be emitted (in
insertion order) at the function's entry. -/
def runOnMachineFunction (ST : SPIRVSubtarget) (defOpcode : Nat → Opcode)
    (MIs : List Instr) : ResolveResult :=
  MIs.foldl (processInstr ST defOpcode) (none, ⟨[], []⟩)

/-- Transitive reachability in the capability dependency graph: `Reaches c x`
holds when `x` is `c` itself or a direct or transitive prerequisite of `c` as
given by the `Caps` column of `DEF_Capability`. -/
inductive Reaches : Nat → Nat → Prop where
  | refl (c : Nat) : Reaches c c
  | step {c d p : Nat} : Reaches c d → p ∈ capPrereqs d → Reaches c p

theorem Reaches.trans {a b c : Nat} (h1 : Reaches a b) (h2 : Reaches b c) :
    Reaches a c := by
  induction h2 with
  | refl => exact h1
  | step _ hp ih => exact Reaches.step ih hp

theorem lookup_mem {β : Type} (l : List (Nat × β)) (a : Nat) (b : β)
    (h : l.lookup a = some b) : (a, b) ∈ l := by
  induction l with
  | nil => simp [List.lookup] at h
  | cons hd t ih =>
    obtain ⟨k, v⟩ := hd
    rw [List.lookup] at h
    split at h
    · next heq =>
      cases h
      have hk : k = a := by
        have h2 : a = k := by simpa using heq
        omega
      subst hk
      exact List.mem_cons_self _ _
    · exact List.mem_cons_of_mem _ (ih h)

theorem lookup_eq_none_of_not_mem {β : Type} (l : List (Nat × β)) (a : Nat)
    (h : a ∉ l.map Prod.fst) : l.lookup a = none := by
  cases hl : l.lookup a with
  | none => rfl
  | some b =>
    exact absurd (List.mem_map_of_mem Prod.fst (lookup_mem l a b hl)) h

/-- Capabilities outside the table have no prerequisites. -/
theorem capPrereqs_of_not_mem {c : Nat} (h : c ∉ allCaps) : capPrereqs c = [] := by
  unfold capPrereqs capRow
  rw [lookup_eq_none_of_not_mem capTable c h]
  rfl

/-- Every prerequisite named in the capability table is itself a capability of
the table. -/
theorem capPrereqs_subset_allCaps (c : Nat) : ∀ p ∈ capPrereqs c, p ∈ allCaps := by
  by_cases h : c ∈ allCaps
  · cases hl : capTable.lookup c with
    | none =>
      unfold capPrereqs capRow
      rw [hl]
      intro p hp
      simp at hp
    | some row =>
      have hmem : (c, row) ∈ capTable := lookup_mem capTable c row hl
      have : ∀ q ∈ capTable, ∀ p ∈ q.2.1, p ∈ allCaps := by decide
      intro p hp
      refine this (c, row) hmem p ?_
      unfold capPrereqs capRow at hp
      rw [hl] at hp
      exact hp
  · rw [capPrereqs_of_not_mem h]
    intro p hp
    simp at hp

/-- No capability has more than three direct prerequisites. -/
theorem capPrereqs_length_le (c : Nat) : (capPrereqs c).length ≤ 3 := by
  cases hl : capTable.lookup c with
  | none =>
    unfold capPrereqs capRow
    rw [hl]
    simp
  | some row =>
    have hmem : (c, row) ∈ capTable := lookup_mem capTable c row hl
    have : ∀ q ∈ capTable, q.2.1.length ≤ 3 := by decide
    unfold capPrereqs capRow
    rw [hl]
    exact this (c, row) hmem

/-- The free-capability count driving the fuel bound: the number of
capabilities of the table not yet in the enabled set. -/
def nfreeS (s : List Nat) : Nat :=
  (allCaps.filter (fun c => decide (c ∉ s))).length

theorem length_filter_mono {l : List Nat} {p q : Nat → Bool}
    (h : ∀ a, p a = true → q a = true) :
    (l.filter p).length ≤ (l.filter q).length := by
  induction l with
  | nil => simp
  | cons a t ih =>
    by_cases hp : p a
    · rw [List.filter_cons_of_pos hp, List.filter_cons_of_pos (h a hp)]
      simpa using ih
    · rw [List.filter_cons_of_neg (by simpa using hp)]
      by_cases hq : q a
      · rw [List.filter_cons_of_pos hq]
        exact le_trans ih (by simp)
      · rw [List.filter_cons_of_neg (by simpa using hq)]
        exact ih

theorem length_filter_lt {l : List Nat} {p q : Nat → Bool} {c : Nat}
    (h : ∀ a, p a = true → q a = true) (hc : c ∈ l)
    (hpc : p c = false) (hqc : q c = true) :
    (l.filter p).length < (l.filter q).length := by
  induction l with
  | nil => simp at hc
  | cons a t ih =>
    rcases List.mem_cons.mp hc with rfl | hct
    · rw [List.filter_cons_of_neg (by simp [hpc]), List.filter_cons_of_pos hqc]
      exact Nat.lt_succ_of_le (length_filter_mono h)
    · by_cases hp : p a
      · rw [List.filter_cons_of_pos hp, List.filter_cons_of_pos (h a hp)]
        simpa using ih hct
      · rw [List.filter_cons_of_neg (by simpa using hp)]
        by_cases hq : q a
        · rw [List.filter_cons_of_pos hq]
          exact Nat.lt_succ_of_le (le_of_lt (ih hct))
        · rw [List.filter_cons_of_neg (by simpa using hq)]
          exact ih hct

theorem nfreeS_le_of_subset {s s' : List Nat} (h : ∀ x ∈ s, x ∈ s') :
    nfreeS s' ≤ nfreeS s := by
  refine length_filter_mono ?_
  intro a ha
  simp only [decide_eq_true_eq] at ha ⊢
  intro hmem
  exact ha (h a hmem)

theorem nfreeS_le_length (s : List Nat) : nfreeS s ≤ allCaps.length :=
  List.length_filter_le _ _

theorem nfreeS_append_lt {s : List Nat} {c : Nat} (hc : c ∈ allCaps)
    (hcs : c ∉ s) : nfreeS (s ++ [c]) < nfreeS s := by
  refine length_filter_lt ?_ hc ?_ ?_
  · intro a ha
    simp only [decide_eq_true_eq, List.mem_append] at ha ⊢
    intro hmem
    exact ha (Or.inl hmem)
  · simp
  · simpa using hcs

/-- The closure only appends: the starting set is a prefix of the result. -/
theorem enableCapabilityList_seg (fuel : Nat) :
    ∀ s cs, s <+: enableCapabilityList fuel s cs := by
  induction fuel with
  | zero => intro s cs; simp only [enableCapabilityList]; exact List.prefix_refl s
  | succ f ih =>
    intro s cs
    cases cs with
    | nil => simp only [enableCapabilityList]; exact List.prefix_refl s
    | cons c cs =>
      simp only [enableCapabilityList]
      by_cases hc : c ∈ s
      · rw [if_pos hc]
        exact ih s cs
      · rw [if_neg hc]
        exact ((List.prefix_append s [c]).trans
          (ih (s ++ [c]) (capPrereqs c))).trans (ih _ cs)

/-- Degenerate step of the closure: an empty worklist leaves the set alone. -/
theorem enableCapabilityList_nil (fuel : Nat) (s : List Nat) :
    enableCapabilityList fuel s [] = s := by
  cases fuel <;> simp only [enableCapabilityList]

/-- Enabling a capability already in the set leaves the set unchanged. -/
theorem enableCapability_mem_noop (fuel : Nat) (s : List Nat) (c : Nat)
    (hc : c ∈ s) (hf : 0 < fuel) : enableCapability fuel s c = s := by
  cases fuel with
  | zero => omega
  | succ f =>
    unfold enableCapability
    simp only [enableCapabilityList]
    rw [if_pos hc]
    exact enableCapabilityList_nil f s

/-- The enabled capability is a member of the closure result. -/
theorem enableCapability_mem_self (fuel : Nat) (s : List Nat) (c : Nat)
    (hf : 0 < fuel) : c ∈ enableCapability fuel s c := by
  cases fuel with
  | zero => omega
  | succ f =>
    unfold enableCapability
    simp only [enableCapabilityList]
    by_cases hc : c ∈ s
    · rw [if_pos hc, enableCapabilityList_nil]
      exact hc
    · rw [if_neg hc]
      refine ((enableCapabilityList_seg f _ _).trans
        (enableCapabilityList_seg f _ _)).subset ?_
      exact List.mem_append_right s (List.mem_cons_self c [])

/-- Soundness of the closure: every element of the result was already in the
set or is reachable from one of the worklist capabilities. -/
theorem enableCapabilityList_sound (fuel : Nat) :
    ∀ s cs, ∀ d ∈ enableCapabilityList fuel s cs,
      d ∈ s ∨ ∃ c ∈ cs, Reaches c d := by
  induction fuel with
  | zero =>
    intro s cs d hd
    simp only [enableCapabilityList] at hd
    exact Or.inl hd
  | succ f ih =>
    intro s cs d hd
    cases cs with
    | nil =>
      simp only [enableCapabilityList] at hd
      exact Or.inl hd
    | cons c cs =>
      simp only [enableCapabilityList] at hd
      by_cases hc : c ∈ s
      · rw [if_pos hc] at hd
        rcases ih s cs d hd with h | ⟨c', hc', hr⟩
        · exact Or.inl h
        · exact Or.inr ⟨c', List.mem_cons_of_mem c hc', hr⟩
      · rw [if_neg hc] at hd
        rcases ih _ cs d hd with hdin | ⟨c', hc', hr⟩
        · rcases ih (s ++ [c]) (capPrereqs c) d hdin with hds1 | ⟨p, hp, hr⟩
          · rcases List.mem_append.mp hds1 with h | h
            · exact Or.inl h
            · have : d = c := by simpa using h
              subst this
              exact Or.inr ⟨d, List.mem_cons_self d cs, Reaches.refl d⟩
          · exact Or.inr ⟨c, List.mem_cons_self c cs,
              Reaches.trans (Reaches.step (Reaches.refl c) hp) hr⟩
        · exact Or.inr ⟨c', List.mem_cons_of_mem c hc', hr⟩

/-- The closure never inserts a duplicate. -/
theorem enableCapabilityList_nodup (fuel : Nat) :
    ∀ s cs, s.Nodup → (enableCapabilityList fuel s cs).Nodup := by
  induction fuel with
  | zero => intro s cs h; simpa only [enableCapabilityList] using h
  | succ f ih =>
    intro s cs h
    cases cs with
    | nil => simpa only [enableCapabilityList] using h
    | cons c cs =>
      simp only [enableCapabilityList]
      by_cases hc : c ∈ s
      · rw [if_pos hc]
        exact ih s cs h
      · rw [if_neg hc]
        refine ih _ cs (ih (s ++ [c]) (capPrereqs c) ?_)
        exact List.nodup_append.mpr ⟨h, List.nodup_singleton c, by
          intro x hx hxc
          have : x = c := by simpa using hxc
          exact hc (this ▸ hx)⟩

/-- Completeness and closedness of the closure, under a sufficient fuel
bound: every worklist capability ends up in the result, and every element
newly added to the set has all its direct prerequisites in the result. -/
theorem enableCapabilityList_spec (fuel : Nat) :
    ∀ s cs, 3 * nfreeS s + cs.length < fuel →
      (∀ c ∈ cs, c ∈ enableCapabilityList fuel s cs) ∧
      (∀ d ∈ enableCapabilityList fuel s cs, d ∉ s →
        ∀ p ∈ capPrereqs d, p ∈ enableCapabilityList fuel s cs) := by
  induction fuel with
  | zero => intro s cs h; omega
  | succ f ih =>
    intro s cs hfuel
    cases cs with
    | nil =>
      simp only [enableCapabilityList]
      exact ⟨by intro c hc; simp at hc, by intro d hd hds; exact absurd hd hds⟩
    | cons c cs =>
      simp only [enableCapabilityList]
      have hlc : (c :: cs).length = cs.length + 1 := rfl
      by_cases hc : c ∈ s
      · rw [if_pos hc]
        have hf : 3 * nfreeS s + cs.length < f := by rw [hlc] at hfuel; omega
        obtain ⟨h2, h3⟩ := ih s cs hf
        refine ⟨?_, h3⟩
        intro c' hc'
        rcases List.mem_cons.mp hc' with rfl | h
        · exact (enableCapabilityList_seg f s cs).subset hc
        · exact h2 c' h
      · rw [if_neg hc]
        have hpre_s1 : (s ++ [c]) <+: enableCapabilityList f (s ++ [c]) (capPrereqs c) :=
          enableCapabilityList_seg f _ _
        have hpre_io : enableCapabilityList f (s ++ [c]) (capPrereqs c) <+:
            enableCapabilityList f (enableCapabilityList f (s ++ [c]) (capPrereqs c)) cs :=
          enableCapabilityList_seg f _ _
        have hmono1 : nfreeS (s ++ [c]) ≤ nfreeS s :=
          nfreeS_le_of_subset (fun x hx => List.mem_append_left [c] hx)
        have hmono2 : nfreeS (enableCapabilityList f (s ++ [c]) (capPrereqs c)) ≤
            nfreeS (s ++ [c]) :=
          nfreeS_le_of_subset (fun x hx => hpre_s1.subset hx)
        by_cases hca : c ∈ allCaps
        · have hdec : nfreeS (s ++ [c]) < nfreeS s := nfreeS_append_lt hca hc
          have hlen : (capPrereqs c).length ≤ 3 := capPrereqs_length_le c
          have hfi : 3 * nfreeS (s ++ [c]) + (capPrereqs c).length < f := by
            rw [hlc] at hfuel; omega
          have hfo : 3 * nfreeS (enableCapabilityList f (s ++ [c]) (capPrereqs c)) +
              cs.length < f := by
            rw [hlc] at hfuel; omega
          obtain ⟨hin2, hin3⟩ := ih _ _ hfi
          obtain ⟨hout2, hout3⟩ := ih _ cs hfo
          constructor
          · intro c' hc'
            rcases List.mem_cons.mp hc' with rfl | h
            · exact hpre_io.subset (hpre_s1.subset
                (List.mem_append_right s (List.mem_cons_self c' [])))
            · exact hout2 c' h
          · intro d hd hds p hp
            by_cases hdi : d ∈ enableCapabilityList f (s ++ [c]) (capPrereqs c)
            · by_cases hds1 : d ∈ s ++ [c]
              · have hdc : d = c := by
                  rcases List.mem_append.mp hds1 with h | h
                  · exact absurd h hds
                  · simpa using h
                subst hdc
                exact hpre_io.subset (hin2 p hp)
              · exact hpre_io.subset (hin3 d hdi hds1 p hp)
            · exact hout3 d hd hdi p hp
        · rw [capPrereqs_of_not_mem hca, enableCapabilityList_nil]
          have hfo : 3 * nfreeS (s ++ [c]) + cs.length < f := by
            rw [hlc] at hfuel; omega
          obtain ⟨hout2, hout3⟩ := ih (s ++ [c]) cs hfo
          have hpre : (s ++ [c]) <+: enableCapabilityList f (s ++ [c]) cs :=
            enableCapabilityList_seg f _ _
          constructor
          · intro c' hc'
            rcases List.mem_cons.mp hc' with rfl | h
            · exact hpre.subset (List.mem_append_right s (List.mem_cons_self c' []))
            · exact hout2 c' h
          · intro d hd hds p hp
            by_cases hds1 : d ∈ s ++ [c]
            · have hdc : d = c := by
                rcases List.mem_append.mp hds1 with h | h
                · exact absurd h hds
                · simpa using h
              subst hdc
              rw [capPrereqs_of_not_mem hca] at hp
              simp at hp
            · exact hout3 d hd hds1 p hp

/-- The fixed fuel `capFuel` satisfies the bound of
`enableCapabilityList_spec` for any state and any worklist of at most three
capabilities. -/
theorem capFuel_adequate (s : List Nat) {cs : List Nat} (h : cs.length ≤ 3) :
    3 * nfreeS s + cs.length < capFuel := by
  have := nfreeS_le_length s
  unfold capFuel
  omega

/-- A capability set closed under direct prerequisites. -/
def capClosed (l : List Nat) : Prop :=
  ∀ c ∈ l, ∀ p ∈ capPrereqs c, p ∈ l

instance (l : List Nat) : Decidable (capClosed l) := by
  unfold capClosed
  infer_instance

/-- A set closed under direct prerequisites is closed under transitive
reachability. -/
theorem capClosed_reaches {l : List Nat} (h : capClosed l) {c x : Nat}
    (hc : c ∈ l) (hr : Reaches c x) : x ∈ l := by
  induction hr with
  | refl => exact hc
  | step _ hp ih => exact h _ ih _ hp

/-- The closure operation preserves closedness under direct prerequisites
(for the worklists of at most three capabilities the engine uses). -/
theorem capClosed_enableCapabilityList {s cs : List Nat} (h : capClosed s)
    (hcs : cs.length ≤ 3) : capClosed (enableCapabilityList capFuel s cs) := by
  obtain ⟨h2, h3⟩ := enableCapabilityList_spec capFuel s cs (capFuel_adequate s hcs)
  intro d hd p hp
  by_cases hds : d ∈ s
  · exact (enableCapabilityList_seg capFuel s cs).subset (h d hds p hp)
  · exact h3 d hd hds p hp

/-- Transfer between the subtarget's two-field state (feature flags plus
`availableCaps`) and the accumulator's single enabled set: when flags and set
agree on membership, `enableFeatureCapabilities` computes the same
`availableCaps` as `enableCapabilityList`, and agreement is preserved. -/
theorem enableFeatureCapabilities_avail (fuel : Nat) :
    ∀ st cs, (∀ x, x ∈ st.has ↔ x ∈ st.avail) →
      (enableFeatureCapabilities fuel st cs).avail =
        enableCapabilityList fuel st.avail cs ∧
      (∀ x, x ∈ (enableFeatureCapabilities fuel st cs).has ↔
        x ∈ (enableFeatureCapabilities fuel st cs).avail) := by
  induction fuel with
  | zero =>
    intro st cs hsync
    simp only [enableFeatureCapabilities, enableCapabilityList]
    exact ⟨trivial, hsync⟩
  | succ f ih =>
    intro st cs hsync
    cases cs with
    | nil =>
      simp only [enableFeatureCapabilities, enableCapabilityList]
      exact ⟨trivial, hsync⟩
    | cons c cs =>
      simp only [enableFeatureCapabilities, enableCapabilityList]
      by_cases hh : c ∈ st.has
      · rw [if_pos hh, if_pos ((hsync c).mp hh)]
        exact ih st cs hsync
      · rw [if_neg hh, if_neg (fun ha => hh ((hsync c).mpr ha))]
        rw [if_neg (fun ha => hh ((hsync c).mpr ha))]
        have hsync' : ∀ x, x ∈ (⟨c :: st.has, st.avail ++ [c]⟩ : SubSt).has ↔
            x ∈ (⟨c :: st.has, st.avail ++ [c]⟩ : SubSt).avail := by
          intro x
          simp only [List.mem_cons, List.mem_append, List.mem_singleton]
          rw [hsync x]
          tauto
        obtain ⟨hin1, hin2⟩ := ih ⟨c :: st.has, st.avail ++ [c]⟩ (capPrereqs c) hsync'
        obtain ⟨hout1, hout2⟩ := ih _ cs hin2
        refine ⟨?_, hout2⟩
        rw [hout1, hin1]

/-- The list version of `enableFeatureCapabilities` on an empty worklist. -/
theorem enableFeatureCapabilities_nil (fuel : Nat) (st : SubSt) :
    enableFeatureCapabilities fuel st [] = st := by
  cases fuel <;> simp only [enableFeatureCapabilities]

/-- C1.  Running `SPIRVSubtarget::enableFeatureCapability` on a capability `c`
from the empty state (no feature flags, empty `availableCaps`) produces
exactly the set of capabilities reachable from `c` in the dependency table —
`{c}` union its transitive prerequisites, a traversal-order-free
characterization — with no capability entered twice; and enabling a
capability already a member of the set (with flags and set in agreement, as
they are whenever the state was built by the operation itself) leaves the
state unchanged. -/
theorem claim1_closure_enable (c : Nat) :
    (∀ x, x ∈ (enableFeatureCapability capFuel ⟨[], []⟩ c).avail ↔ Reaches c x) ∧
    (enableFeatureCapability capFuel ⟨[], []⟩ c).avail.Nodup ∧
    (∀ st : SubSt, (∀ y, y ∈ st.has ↔ y ∈ st.avail) → c ∈ st.avail →
      enableFeatureCapability capFuel st c = st) := by
  have hsync : ∀ x, x ∈ (⟨[], []⟩ : SubSt).has ↔ x ∈ (⟨[], []⟩ : SubSt).avail :=
    fun x => Iff.rfl
  have htrans := enableFeatureCapabilities_avail capFuel ⟨[], []⟩ [c] hsync
  have havail : (enableFeatureCapability capFuel ⟨[], []⟩ c).avail =
      enableCapabilityList capFuel [] [c] := htrans.1
  obtain ⟨h2, h3⟩ := enableCapabilityList_spec capFuel [] [c]
    (capFuel_adequate [] (by simp))
  refine ⟨?_, ?_, ?_⟩
  · intro x
    rw [havail]
    constructor
    · intro hx
      rcases enableCapabilityList_sound capFuel [] [c] x hx with h | ⟨c', hc', hr⟩
      · simp at h
      · have : c' = c := by simpa using hc'
        exact this ▸ hr
    · intro hr
      induction hr with
      | refl => exact h2 c (List.mem_cons_self c [])
      | step _ hp ih => exact h3 _ ih (by simp) _ hp
  · rw [havail]
    exact enableCapabilityList_nodup capFuel [] [c] (List.nodup_nil)
  · intro st hsy hmem
    unfold enableFeatureCapability
    have hc : c ∈ st.has := (hsy c).mpr hmem
    show enableFeatureCapabilities capFuel st [c] = st
    rw [show capFuel = (capFuel - 1) + 1 from rfl]
    simp only [enableFeatureCapabilities]
    rw [if_pos hc]

/-- Witness for C1: the characterization at Shader (capability 1), whose
closure contains its prerequisite Matrix (0), and the no-op case on a state
already containing Shader. -/
theorem claim1_closure_enable_witness :
    (0 ∈ (enableFeatureCapability capFuel ⟨[], []⟩ 1).avail) ∧
    enableFeatureCapability capFuel ⟨[1, 0], [1, 0]⟩ 1 = ⟨[1, 0], [1, 0]⟩ :=
  ⟨((claim1_closure_enable 1).1 0).mpr
      (Reaches.step (Reaches.refl 1) (by decide)),
   (claim1_closure_enable 1).2.2 ⟨[1, 0], [1, 0]⟩ (fun y => Iff.rfl)
      (by decide)⟩

/-- The extension part of `addRequirements` never touches the capability set. -/
theorem extFold_caps (ST : SPIRVSubtarget) (exts : List Nat) :
    ∀ acc : ResolveResult,
      ((exts.foldl (addExtension ST) acc).2).caps = acc.2.caps := by
  induction exts with
  | nil => intro acc; rfl
  | cons e exts ih =>
    intro acc
    rw [List.foldl_cons, ih]
    obtain ⟨e?, r1⟩ := acc
    cases e? with
    | none =>
      simp only [addExtension, andThenR]
      by_cases hc : canUseExtension ST e
      · rw [if_pos hc]
        by_cases hm : e ∈ r1.exts
        · rw [if_pos hm]
        · rw [if_neg hm]
      · rw [if_neg hc]
    | some err => rfl

theorem addExtRequirements_caps (ST : SPIRVSubtarget) (exts : List Nat)
    (minVer maxVer : Nat) (r : RequirementHandler) :
    ((addExtRequirements ST exts minVer maxVer r).2).caps = r.caps := by
  unfold addExtRequirements
  by_cases hw : verInWindow ST.targetSPIRVVersion minVer maxVer
  · rw [if_pos hw]
  · rw [if_neg hw]
    exact extFold_caps ST exts (none, r)

/-- Any alternative of a table-derived requirement is a singleton. -/
theorem rowToRequirement_alt_len (row : List Nat × List Nat × Nat × Nat) :
    ∀ a ∈ (rowToRequirement row).altCaps, a.length ≤ 3 := by
  intro a ha
  simp only [rowToRequirement, List.mem_map] at ha
  obtain ⟨c, _, rfl⟩ := ha
  simp

theorem getCapabilityRequirements_alt_len (c : Nat) :
    ∀ a ∈ (getCapabilityRequirements c).altCaps, a.length ≤ 3 := by
  intro a ha
  simp only [getCapabilityRequirements] at ha
  have : a = [c] := by simpa using ha
  subst this
  simp

theorem capClosed_addCapability {r : RequirementHandler} (c : Nat)
    (h : capClosed r.caps) : capClosed (addCapability r c).caps :=
  capClosed_enableCapabilityList h (by simp)

theorem capClosed_addRequirements (ST : SPIRVSubtarget) (rq : Requirement)
    (hl : ∀ a ∈ rq.altCaps, a.length ≤ 3) (r : RequirementHandler)
    (h : capClosed r.caps) : capClosed ((addRequirements ST rq r).2).caps := by
  unfold addRequirements
  by_cases h1 : rq.altCaps.isEmpty
  · rw [if_pos h1]
    simp only [andThenR]
    rw [addExtRequirements_caps]
    exact h
  · rw [if_neg h1]
    by_cases h2 : rq.altCaps.any (fun a => a.all (fun c => c ∈ r.caps))
    · rw [if_pos h2]
      simp only [andThenR]
      rw [addExtRequirements_caps]
      exact h
    · rw [if_neg h2]
      cases hf : rq.altCaps.find? (fun a => a.all (fun c => canUseCapability ST c)) with
      | some a =>
        show capClosed ((addExtRequirements ST rq.exts rq.minVer rq.maxVer
          { r with caps := enableCapabilityList capFuel r.caps a }).2).caps
        rw [addExtRequirements_caps]
        exact capClosed_enableCapabilityList h (hl a (List.mem_of_find?_eq_some hf))
      | none =>
        exact h

theorem capClosed_addDimReqs (ST : SPIRVSubtarget) (dim : Nat)
    (a m ns : Bool) (r1 : RequirementHandler) (h : capClosed r1.caps) :
    capClosed ((addDimReqs ST dim a m ns r1).2).caps := by
  unfold addDimReqs
  split
  · exact capClosed_addRequirements ST _ (getCapabilityRequirements_alt_len _) r1 h
  · by_cases hm : m && ns
    · rw [if_pos hm]
      exact capClosed_addRequirements ST _ (getCapabilityRequirements_alt_len _) r1 h
    · rw [if_neg hm]
      exact h
  · exact h
  · rcases hc : addRequirements ST (getCapabilityRequirements 1) r1 with ⟨e?, r2⟩
    have hr2 : capClosed r2.caps := by
      have := capClosed_addRequirements ST (getCapabilityRequirements 1)
        (getCapabilityRequirements_alt_len 1) r1 h
      rw [hc] at this
      exact this
    cases e? with
    | none =>
      simp only [andThenR]
      by_cases ha : a
      · rw [if_pos ha]
        exact capClosed_addRequirements ST _ (getCapabilityRequirements_alt_len _) r2 hr2
      · rw [if_neg ha]
        exact hr2
    | some err =>
      simp only [andThenR]
      exact hr2
  · exact capClosed_addRequirements ST _ (getCapabilityRequirements_alt_len _) r1 h
  · exact capClosed_addRequirements ST _ (getCapabilityRequirements_alt_len _) r1 h
  · exact capClosed_addRequirements ST _ (getCapabilityRequirements_alt_len _) r1 h
  · exact h

theorem capClosed_addOpDecorateReqs (ST : SPIRVSubtarget) (MI : Instr)
    (idx : Nat) (r : RequirementHandler) (h : capClosed r.caps) :
    capClosed ((addOpDecorateReqs ST MI idx r).2).caps := by
  unfold addOpDecorateReqs withOperand
  cases hx : MI.operands[idx]? with
  | none => exact h
  | some d =>
    dsimp only
    rcases hres : addRequirements ST (getDecorationRequirements d) r with ⟨e?, r1⟩
    have hr1 : capClosed r1.caps := by
      have := capClosed_addRequirements ST (getDecorationRequirements d)
        (rowToRequirement_alt_len _) r h
      rw [hres] at this
      exact this
    cases e? with
    | none =>
      simp only [andThenR]
      by_cases hd : d = 11
      · rw [if_pos hd]
        cases hy : MI.operands[idx + 1]? with
        | none => exact hr1
        | some b =>
          exact capClosed_addRequirements ST _ (rowToRequirement_alt_len _) r1 hr1
      · rw [if_neg hd]
        exact hr1
    | some err =>
      simp only [andThenR]
      exact hr1

theorem capClosed_addVariablePtrInstrReqs (ST : SPIRVSubtarget)
    (defOpcode : Nat → Opcode) (MI : Instr) (r : RequirementHandler)
    (h : capClosed r.caps) :
    capClosed ((addVariablePtrInstrReqs ST defOpcode MI r).2).caps := by
  unfold addVariablePtrInstrReqs withOperand
  by_cases hl : isLogicalAddressing ST
  · rw [if_pos hl]
    cases hx : MI.operands[1]? with
    | none => exact h
    | some t =>
      dsimp only
      by_cases hp : defOpcode t = Opcode.OpTypePointer
      · rw [if_pos hp]
        exact capClosed_addCapability 4442 h
      · rw [if_neg hp]
        exact h
  · rw [if_neg hl]
    exact h

theorem capClosed_addOpTypeImageReqs (ST : SPIRVSubtarget) (MI : Instr)
    (r : RequirementHandler) (h : capClosed r.caps) :
    capClosed ((addOpTypeImageReqs ST MI r).2).caps := by
  unfold addOpTypeImageReqs withOperand
  by_cases hlen : MI.operands.length < 8
  · rw [if_pos hlen]
    exact h
  · rw [if_neg hlen]
    cases h7 : MI.operands[7]? with
    | none => exact h
    | some fmt =>
      dsimp only
      rcases hres : addRequirements ST (getImageFormatRequirements fmt) r with ⟨e?, r1⟩
      have hr1 : capClosed r1.caps := by
        have := capClosed_addRequirements ST (getImageFormatRequirements fmt)
          (rowToRequirement_alt_len _) r h
        rw [hres] at this
        exact this
      cases e? with
      | some err => simp only [andThenR]; exact hr1
      | none =>
        simp only [andThenR]
        cases h4 : MI.operands[4]? with
        | none => exact hr1
        | some arrayedOp =>
          cases h5 : MI.operands[5]? with
          | none => exact hr1
          | some msOp =>
            cases h6 : MI.operands[6]? with
            | none => exact hr1
            | some sampledOp =>
              cases h2 : MI.operands[2]? with
              | none => exact hr1
              | some dim =>
                dsimp only
                rcases hdim : addDimReqs ST dim (decide (arrayedOp = 1))
                    (decide (msOp = 1)) (decide (sampledOp = 2)) r1 with ⟨e2, r2⟩
                have hr2 : capClosed r2.caps := by
                  have := capClosed_addDimReqs ST dim (decide (arrayedOp = 1))
                      (decide (msOp = 1)) (decide (sampledOp = 2)) r1 hr1
                  rw [hdim] at this
                  exact this
                cases e2 with
                | some err => exact hr2
                | none =>
                  dsimp only
                  by_cases hk : isKernel ST
                  · rw [if_pos hk]
                    by_cases h8 : MI.operands.length > 8
                    · rw [if_pos h8]
                      cases h8o : MI.operands[8]? with
                      | none => exact hr2
                      | some aq =>
                        dsimp only
                        by_cases haq : aq = 2
                        · rw [if_pos haq]
                          exact capClosed_addRequirements ST _
                            (getCapabilityRequirements_alt_len _) r2 hr2
                        · rw [if_neg haq]
                          exact capClosed_addRequirements ST _
                            (getCapabilityRequirements_alt_len _) r2 hr2
                    · rw [if_neg h8]
                      exact capClosed_addRequirements ST _
                        (getCapabilityRequirements_alt_len _) r2 hr2
                  · rw [if_neg hk]
                    exact hr2

/-- Requirement mapping preserves closedness under prerequisites of the
accumulated capability set, for every instruction. -/
theorem capClosed_addInstrRequirements (ST : SPIRVSubtarget)
    (defOpcode : Nat → Opcode) (MI : Instr) (r : RequirementHandler)
    (h : capClosed r.caps) :
    capClosed ((addInstrRequirements ST defOpcode MI r).2).caps := by
  obtain ⟨op, ops⟩ := MI
  cases op <;> simp only [addInstrRequirements]
  case OpMemoryModel =>
    unfold withOperand
    cases h0 : ops[0]? with
    | none => exact h
    | some addr =>
      dsimp only
      rcases hres : addRequirements ST (getAddressingModelRequirements addr) r with ⟨e?, r1⟩
      have hr1 : capClosed r1.caps := by
        have := capClosed_addRequirements ST (getAddressingModelRequirements addr)
          (rowToRequirement_alt_len _) r h
        rw [hres] at this
        exact this
      cases e? with
      | some err => simp only [andThenR]; exact hr1
      | none =>
        simp only [andThenR]
        cases h1 : ops[1]? with
        | none => exact hr1
        | some mem =>
          dsimp only
          exact capClosed_addRequirements ST _ (rowToRequirement_alt_len _) r1 hr1
  case OpEntryPoint =>
    unfold withOperand
    cases h0 : ops[0]? with
    | none => exact h
    | some exe =>
      exact capClosed_addRequirements ST _ (rowToRequirement_alt_len _) r h
  case OpExecutionMode =>
    unfold withOperand
    cases h1 : ops[1]? with
    | none => exact h
    | some exe =>
      exact capClosed_addRequirements ST _ (rowToRequirement_alt_len _) r h
  case OpExecutionModeId =>
    unfold withOperand
    cases h1 : ops[1]? with
    | none => exact h
    | some exe =>
      exact capClosed_addRequirements ST _ (rowToRequirement_alt_len _) r h
  case OpTypeMatrix => exact capClosed_addCapability 0 h
  case OpTypeInt =>
    unfold withOperand
    cases h1 : ops[1]? with
    | none => exact h
    | some w =>
      dsimp only
      by_cases h64 : w = 64
      · rw [if_pos h64]; exact capClosed_addCapability 11 h
      · rw [if_neg h64]
        by_cases h16 : w = 16
        · rw [if_pos h16]; exact capClosed_addCapability 22 h
        · rw [if_neg h16]
          by_cases h8 : w = 8
          · rw [if_pos h8]; exact capClosed_addCapability 39 h
          · rw [if_neg h8]; exact h
  case OpTypeFloat =>
    unfold withOperand
    cases h1 : ops[1]? with
    | none => exact h
    | some w =>
      dsimp only
      by_cases h64 : w = 64
      · rw [if_pos h64]; exact capClosed_addCapability 10 h
      · rw [if_neg h64]
        by_cases h16 : w = 16
        · rw [if_pos h16]; exact capClosed_addCapability 9 h
        · rw [if_neg h16]; exact h
  case OpTypeVector =>
    unfold withOperand
    cases h2 : ops[2]? with
    | none => exact h
    | some n =>
      dsimp only
      by_cases hn : n = 8 ∨ n = 16
      · rw [if_pos hn]; exact capClosed_addCapability 7 h
      · rw [if_neg hn]; exact h
  case OpTypePointer =>
    unfold withOperand
    cases h1 : ops[1]? with
    | none => exact h
    | some sc =>
      exact capClosed_addRequirements ST _ (rowToRequirement_alt_len _) r h
  case OpTypeRuntimeArray => exact capClosed_addCapability 1 h
  case OpTypeOpaque => exact capClosed_addCapability 6 h
  case OpTypeEvent => exact capClosed_addCapability 6 h
  case OpTypePipe => exact capClosed_addCapability 17 h
  case OpTypeReserveId => exact capClosed_addCapability 17 h
  case OpTypeDeviceEvent => exact capClosed_addCapability 19 h
  case OpTypeQueue => exact capClosed_addCapability 19 h
  case OpDecorate => exact capClosed_addOpDecorateReqs ST _ 1 r h
  case OpDecorateId => exact capClosed_addOpDecorateReqs ST _ 1 r h
  case OpDecorateString => exact capClosed_addOpDecorateReqs ST _ 1 r h
  case OpMemberDecorate => exact capClosed_addOpDecorateReqs ST _ 2 r h
  case OpMemberDecorateString => exact capClosed_addOpDecorateReqs ST _ 2 r h
  case OpInBoundsPtrAccessChain => exact capClosed_addCapability 4 h
  case OpConstantSampler => exact capClosed_addCapability 20 h
  case OpTypeImage => exact capClosed_addOpTypeImageReqs ST _ r h
  case OpTypeSampler => exact capClosed_addCapability 13 h
  case OpTypeForwardPointer =>
    by_cases hk : isKernel ST
    · rw [if_pos hk]; exact capClosed_addCapability 4 h
    · rw [if_neg hk]; exact capClosed_addCapability 5347 h
  case OpSelect => exact capClosed_addVariablePtrInstrReqs ST defOpcode _ r h
  case OpPhi => exact capClosed_addVariablePtrInstrReqs ST defOpcode _ r h
  case OpFunctionCall => exact capClosed_addVariablePtrInstrReqs ST defOpcode _ r h
  case OpPtrAccessChain => exact capClosed_addVariablePtrInstrReqs ST defOpcode _ r h
  case OpLoad => exact capClosed_addVariablePtrInstrReqs ST defOpcode _ r h
  case OpConstantNull => exact capClosed_addVariablePtrInstrReqs ST defOpcode _ r h
  case OpOther => exact h

/-- C7.  After a Target Environment Profile is fully constructed — base
capabilities flagged per environment, then expanded by
`updateCapabilitiesFromFeatures`, which may also erase capabilities whose
feature flag is false — `availableCaps` is transitively closed: every direct
or transitive prerequisite of a member is a member; and the per-function
resolved capability set enjoys the same closure property (instruction
processing preserves it, so it holds of the set the driver accumulates from
the closed empty set). -/
theorem claim7_closure_completeness :
    (∀ TT : Triple, ∀ c ∈ (mkSPIRVSubtarget TT).capSt.avail, ∀ x, Reaches c x →
      x ∈ (mkSPIRVSubtarget TT).capSt.avail) ∧
    (∀ (ST : SPIRVSubtarget) (defOpcode : Nat → Opcode) (MI : Instr)
      (r : RequirementHandler), capClosed r.caps →
      ∀ c ∈ (addInstrRequirements ST defOpcode MI r).2.caps, ∀ x, Reaches c x →
        x ∈ (addInstrRequirements ST defOpcode MI r).2.caps) := by
  constructor
  · intro TT
    obtain ⟨l, v, o⟩ := TT
    cases v
    · have h : (mkSPIRVSubtarget ⟨l, false, o⟩).capSt.avail =
          (updateCapabilitiesFromFeatures
            ⟨initAvailableCapabilities false (mkVer 1 4 0) (mkVer 2 2 0) true true,
              []⟩).avail := rfl
      rw [h]
      have hcl : capClosed (updateCapabilitiesFromFeatures
          ⟨initAvailableCapabilities false (mkVer 1 4 0) (mkVer 2 2 0) true true,
            []⟩).avail := by decide
      intro c hc x hx
      exact capClosed_reaches hcl hc hx
    · have h : (mkSPIRVSubtarget ⟨l, true, o⟩).capSt.avail =
          (updateCapabilitiesFromFeatures
            ⟨initAvailableCapabilities true (mkVer 1 4 0) 0 true true, []⟩).avail := rfl
      rw [h]
      have hcl : capClosed (updateCapabilitiesFromFeatures
          ⟨initAvailableCapabilities true (mkVer 1 4 0) 0 true true, []⟩).avail := by
        decide
      intro c hc x hx
      exact capClosed_reaches hcl hc hx
  · intro ST defOpcode MI r hr c hc x hx
    exact capClosed_reaches
      (capClosed_addInstrRequirements ST defOpcode MI r hr) hc hx

/-- Witness for C7: in the Vulkan profile, Shader (1) is available, so its
prerequisite Matrix (0) is too; and processing an OpTypeVector instruction of
8 lanes from the closed empty accumulator yields a set containing Vector16 (7)
and hence its prerequisite Kernel (6). -/
theorem claim7_closure_completeness_witness :
    0 ∈ (mkSPIRVSubtarget ⟨true, true, false⟩).capSt.avail ∧
    6 ∈ (addInstrRequirements (mkSPIRVSubtarget ⟨true, true, false⟩)
      (fun _ => Opcode.OpOther) ⟨Opcode.OpTypeVector, [0, 0, 8]⟩ ⟨[], []⟩).2.caps := by
  constructor
  · refine claim7_closure_completeness.1 ⟨true, true, false⟩ 1 ?_ 0
      (Reaches.step (Reaches.refl 1) (by decide))
    have h : (mkSPIRVSubtarget ⟨true, true, false⟩).capSt.avail =
        (updateCapabilitiesFromFeatures
          ⟨initAvailableCapabilities true (mkVer 1 4 0) 0 true true, []⟩).avail := rfl
    rw [h]
    decide
  · refine claim7_closure_completeness.2 (mkSPIRVSubtarget ⟨true, true, false⟩)
      (fun _ => Opcode.OpOther) ⟨Opcode.OpTypeVector, [0, 0, 8]⟩ ⟨[], []⟩
      (by decide) 7 ?_ 6 (Reaches.step (Reaches.refl 7) (by decide))
    decide

/-- C10.  The target-flavor predicates are derived from the environment and
addressing fields, not independent: `isKernel` holds iff the target uses the
OpenCL environment or does not use logical addressing, and `isShader` holds
iff the target uses the Vulkan environment or uses logical addressing; hence
every target is kernel-flavored or shader-flavored, and a logically-addressed
OpenCL target is both at once. -/
theorem claim10_flavor_predicates :
    (∀ ST : SPIRVSubtarget,
      (isKernel ST = true ↔ (ST.usesOpenCLEnv = true ∨ ¬ST.usesLogicalAddressing = true)) ∧
      (isShader ST = true ↔ (ST.usesVulkanEnv = true ∨ ST.usesLogicalAddressing = true)) ∧
      (isKernel ST = true ∨ isShader ST = true)) ∧
    (∀ TT : Triple, TT.isOpenCLEnvironment = true → TT.isSPIRVLogical = true →
      isKernel (mkSPIRVSubtarget TT) = true ∧ isShader (mkSPIRVSubtarget TT) = true) := by
  constructor
  · intro ST
    refine ⟨?_, ?_, ?_⟩
    · unfold isKernel
      cases h1 : ST.usesOpenCLEnv <;> cases h2 : ST.usesLogicalAddressing <;> simp
    · unfold isShader
      cases h1 : ST.usesVulkanEnv <;> cases h2 : ST.usesLogicalAddressing <;> simp
    · unfold isKernel isShader
      cases h1 : ST.usesOpenCLEnv <;> cases h2 : ST.usesLogicalAddressing <;>
        cases h3 : ST.usesVulkanEnv <;> simp
  · intro TT ho hl
    have hk : (mkSPIRVSubtarget TT).usesOpenCLEnv = TT.isOpenCLEnvironment := rfl
    have hls : (mkSPIRVSubtarget TT).usesLogicalAddressing = TT.isSPIRVLogical := rfl
    constructor
    · unfold isKernel
      rw [hk, ho]
      rfl
    · unfold isShader
      rw [hls, hl]
      simp

/-- Witness for C10: the logically-addressed OpenCL target is classified as
both kernel- and shader-flavored. -/
theorem claim10_flavor_predicates_witness :
    isKernel (mkSPIRVSubtarget ⟨true, false, true⟩) = true ∧
    isShader (mkSPIRVSubtarget ⟨true, false, true⟩) = true :=
  claim10_flavor_predicates.2 ⟨true, false, true⟩ rfl rfl

/-- C2 (general part).  When no alternative of a requirement is already
satisfied — in particular whenever the accumulator respects availability
containment, since the sole alternative contains a capability `X` the Profile
does not make available (`canUseCapability X` is false) — resolution of that
requirement fails with the unmet-capability error and returns the accumulator
unchanged: nothing is added to either set on the error path. -/
theorem claim2_unmet_capability (ST : SPIRVSubtarget) (a : List Nat)
    (exts : List Nat) (minVer maxVer : Nat) (r : RequirementHandler) (X : Nat)
    (hXa : X ∈ a) (hX : canUseCapability ST X = false)
    (hcontain : ∀ c ∈ r.caps, canUseCapability ST c = true) :
    addRequirements ST ⟨[a], exts, minVer, maxVer⟩ r =
      (some Err.unmetCapabilityRequirement, r) := by
  unfold addRequirements
  have h1 : ([a] : List (List Nat)).isEmpty = false := rfl
  rw [h1]
  have h2 : ([a].any (fun b => b.all (fun c => c ∈ r.caps))) = false := by
    simp only [List.any_cons, List.any_nil, Bool.or_false]
    rw [List.all_eq_false]
    refine ⟨X, hXa, ?_⟩
    simp only [decide_eq_true_eq]
    intro hmem
    rw [hcontain X hmem] at hX
    cases hX
  rw [h2]
  have h3 : ([a].find? (fun b => b.all (fun c => canUseCapability ST c))) = none := by
    rw [List.find?_eq_none]
    intro b hb
    have : b = a := by simpa using hb
    subst this
    rw [Bool.not_eq_true, List.all_eq_false]
    exact ⟨X, hXa, by simp [hX]⟩
  rw [h3]
  simp only [Bool.false_eq_true, if_false]
  rfl

/-- Witness for C2: under the Vulkan profile, which does not make
GenericPointer (38) available, an OpTypePointer instruction with the Generic
storage class (8) — whose requirement's only alternative is {GenericPointer}
— fails with the unmet-capability error from the empty accumulator, which is
left unchanged. -/
theorem claim2_unmet_capability_witness :
    addRequirements (mkSPIRVSubtarget ⟨true, true, false⟩)
        ⟨[[38]], [], 0, 0⟩ ⟨[], []⟩ =
      (some Err.unmetCapabilityRequirement, ⟨[], []⟩) ∧
    runOnMachineFunction (mkSPIRVSubtarget ⟨true, true, false⟩)
        (fun _ => Opcode.OpOther) [⟨Opcode.OpTypePointer, [5, 8]⟩] =
      (some Err.unmetCapabilityRequirement, ⟨[], []⟩) := by
  have hX : canUseCapability (mkSPIRVSubtarget ⟨true, true, false⟩) 38 = false := by
    have h : (mkSPIRVSubtarget ⟨true, true, false⟩).capSt.avail =
        (updateCapabilitiesFromFeatures
          ⟨initAvailableCapabilities true (mkVer 1 4 0) 0 true true, []⟩).avail := rfl
    unfold canUseCapability
    rw [h]
    decide
  have h1 := claim2_unmet_capability (mkSPIRVSubtarget ⟨true, true, false⟩)
    [38] [] 0 0 ⟨[], []⟩ 38 (by decide) hX (by intro c hc; simp at hc)
  refine ⟨h1, ?_⟩
  unfold runOnMachineFunction
  rw [List.foldl_cons, List.foldl_nil]
  unfold processInstr
  simp only [andThenR, addInstrRequirements, withOperand]
  have hop : ([5, 8] : List Nat)[1]? = some 8 := rfl
  rw [hop]
  dsimp only
  have hreq : getStorageClassRequirements 8 = ⟨[[38]], [], 0, 0⟩ := by decide
  rw [hreq]
  exact h1

/-- C3 (counterexample).  The claim as stated fails for an unspecified
negotiated target version: version 0 is numerically below V1 = 0x10400 (the
window of the NoSignedWrap decoration, extension
SPV_KHR_no_integer_wrap_decoration), the Profile makes the extension
available, and yet the extension is not added, because `isAtLeastVer` treats
a target version of 0 as satisfying every minimum. -/
theorem claim3_version_gating_counterexample :
    (0 : Nat) < 0x10400 ∧
    canUseExtension
      ⟨false, false, true, 0, 0x20200, 0, true, true, ⟨[], []⟩, [10]⟩ 10 = true ∧
    addRequirements
      ⟨false, false, true, 0, 0x20200, 0, true, true, ⟨[], []⟩, [10]⟩
      (getDecorationRequirements 4469) ⟨[], []⟩ = (none, ⟨[], []⟩) := by
  refine ⟨by omega, rfl, ?_⟩
  decide

/-- C3 (amended).  For a requirement carrying extension `E` with
version-applicability window [V1, 0] (unbounded upper bound): when the
negotiated target version is at least V1 (in the sense of `isAtLeastVer`,
which also treats an unspecified version 0 as passing), `E` is not added to
the accumulated extension set; when the negotiated version is specified
(nonzero) and below V1, `E` is added if the Profile makes it available, and
otherwise resolution fails with the unmet-extension error. -/
theorem claim3_version_gating (ST : SPIRVSubtarget) (E V1 : Nat)
    (r : RequirementHandler) :
    (isAtLeastVer ST.targetSPIRVVersion V1 = true →
      addRequirements ST ⟨[], [E], V1, 0⟩ r = (none, r)) ∧
    (0 < ST.targetSPIRVVersion → ST.targetSPIRVVersion < V1 →
      (canUseExtension ST E = true →
        addRequirements ST ⟨[], [E], V1, 0⟩ r =
          (none, if E ∈ r.exts then r else ⟨r.caps, r.exts ++ [E]⟩)) ∧
      (canUseExtension ST E = false →
        addRequirements ST ⟨[], [E], V1, 0⟩ r =
          (some Err.unmetExtensionRequirement, r))) := by
  have key : addRequirements ST ⟨[], [E], V1, 0⟩ r =
      addExtRequirements ST [E] V1 0 r := rfl
  constructor
  · intro h
    rw [key]
    unfold addExtRequirements
    have hw : verInWindow ST.targetSPIRVVersion V1 0 = true := by
      unfold verInWindow
      rw [h]
      rfl
    rw [if_pos hw]
  · intro h0 hlt
    have hv : isAtLeastVer ST.targetSPIRVVersion V1 = false := by
      unfold isAtLeastVer
      have h1 : (ST.targetSPIRVVersion == 0) = false := by
        simp only [beq_eq_false_iff_ne, ne_eq]
        omega
      have h2 : (decide (ST.targetSPIRVVersion ≥ V1)) = false := by
        simp only [ge_iff_le, decide_eq_false_iff_not, not_le]
        omega
      rw [h1, h2]
      rfl
    have hw : verInWindow ST.targetSPIRVVersion V1 0 = false := by
      unfold verInWindow
      rw [hv]
      rfl
    rw [key]
    unfold addExtRequirements
    rw [if_neg (by simp [hw])]
    rw [List.foldl_cons, List.foldl_nil]
    unfold addExtension
    simp only [andThenR]
    constructor
    · intro hc
      rw [if_pos (by simp [hc])]
    · intro hc
      rw [if_neg (by simp [hc])]

/-- Witness for C3: the NoSignedWrap window [0x10400, 0] at negotiated
versions 0x10400 (at least V1: omitted), 0x10300 with the extension available
(added), and 0x10300 with it unavailable (unmet-extension failure). -/
theorem claim3_version_gating_witness :
    addRequirements ⟨false, false, true, 0x10400, 0x20200, 0, true, true, ⟨[], []⟩, [10]⟩
        ⟨[], [10], 0x10400, 0⟩ ⟨[], []⟩ = (none, ⟨[], []⟩) ∧
    addRequirements ⟨false, false, true, 0x10300, 0x20200, 0, true, true, ⟨[], []⟩, [10]⟩
        ⟨[], [10], 0x10400, 0⟩ ⟨[], []⟩ = (none, ⟨[], [10]⟩) ∧
    addRequirements ⟨false, false, true, 0x10300, 0x20200, 0, true, true, ⟨[], []⟩, []⟩
        ⟨[], [10], 0x10400, 0⟩ ⟨[], []⟩ =
      (some Err.unmetExtensionRequirement, ⟨[], []⟩) := by
  refine ⟨(claim3_version_gating _ 10 0x10400 ⟨[], []⟩).1 (by decide), ?_, ?_⟩
  · have h := ((claim3_version_gating
      ⟨false, false, true, 0x10300, 0x20200, 0, true, true, ⟨[], []⟩, [10]⟩
      10 0x10400 ⟨[], []⟩).2 (by decide) (by decide)).1 rfl
    simpa using h
  · exact ((claim3_version_gating
      ⟨false, false, true, 0x10300, 0x20200, 0, true, true, ⟨[], []⟩, []⟩
      10 0x10400 ⟨[], []⟩).2 (by decide) (by decide)).2 rfl

/-- C4.  For each of OpSelect, OpPhi, OpFunctionCall, OpPtrAccessChain,
OpLoad and OpConstantNull: under a logical-addressing Profile the instruction
contributes the VariablePointers capability requirement exactly when its type
operand (operand 1) is defined by an OpTypePointer instruction, and under a
non-logical-addressing Profile it contributes nothing. -/
theorem claim4_variable_pointers (ST : SPIRVSubtarget)
    (defOpcode : Nat → Opcode) (MI : Instr) (r : RequirementHandler) (t : Nat)
    (hop : MI.opcode = Opcode.OpSelect ∨ MI.opcode = Opcode.OpPhi ∨
      MI.opcode = Opcode.OpFunctionCall ∨ MI.opcode = Opcode.OpPtrAccessChain ∨
      MI.opcode = Opcode.OpLoad ∨ MI.opcode = Opcode.OpConstantNull)
    (ht : MI.operands[1]? = some t) :
    (isLogicalAddressing ST = true → defOpcode t = Opcode.OpTypePointer →
      addInstrRequirements ST defOpcode MI r = (none, addCapability r 4442) ∧
      4442 ∈ (addCapability r 4442).caps) ∧
    (isLogicalAddressing ST = true → defOpcode t ≠ Opcode.OpTypePointer →
      addInstrRequirements ST defOpcode MI r = (none, r)) ∧
    (isLogicalAddressing ST = false →
      addInstrRequirements ST defOpcode MI r = (none, r)) := by
  obtain ⟨op, ops⟩ := MI
  simp only at hop ht
  have hdispatch : addInstrRequirements ST defOpcode ⟨op, ops⟩ r =
      addVariablePtrInstrReqs ST defOpcode ⟨op, ops⟩ r := by
    rcases hop with h | h | h | h | h | h <;> subst h <;>
      simp only [addInstrRequirements]
  rw [hdispatch]
  unfold addVariablePtrInstrReqs withOperand
  simp only
  rw [ht]
  refine ⟨?_, ?_, ?_⟩
  · intro hl hp
    rw [if_pos hl]
    dsimp only
    rw [if_pos hp]
    exact ⟨rfl, enableCapability_mem_self capFuel r.caps 4442 (by decide)⟩
  · intro hl hp
    rw [if_pos hl]
    dsimp only
    rw [if_neg hp]
  · intro hl
    rw [if_neg (by simp [hl])]

/-- Witness for C4: an OpLoad whose type operand is pointer-defined adds
VariablePointers under the logical Vulkan profile; the same instruction under
the non-logical OpenCL profile adds nothing. -/
theorem claim4_variable_pointers_witness :
    (addInstrRequirements (mkSPIRVSubtarget ⟨true, true, false⟩)
        (fun _ => Opcode.OpTypePointer) ⟨Opcode.OpLoad, [9, 3]⟩ ⟨[], []⟩ =
      (none, addCapability ⟨[], []⟩ 4442) ∧
      4442 ∈ (addCapability (⟨[], []⟩ : RequirementHandler) 4442).caps) ∧
    addInstrRequirements (mkSPIRVSubtarget ⟨false, false, true⟩)
        (fun _ => Opcode.OpTypePointer) ⟨Opcode.OpLoad, [9, 3]⟩ ⟨[], []⟩ =
      (none, ⟨[], []⟩) := by
  constructor
  · exact (claim4_variable_pointers (mkSPIRVSubtarget ⟨true, true, false⟩)
      (fun _ => Opcode.OpTypePointer) ⟨Opcode.OpLoad, [9, 3]⟩ ⟨[], []⟩ 3
      (Or.inr (Or.inr (Or.inr (Or.inr (Or.inl rfl))))) rfl).1 rfl rfl
  · exact (claim4_variable_pointers (mkSPIRVSubtarget ⟨false, false, true⟩)
      (fun _ => Opcode.OpTypePointer) ⟨Opcode.OpLoad, [9, 3]⟩ ⟨[], []⟩ 3
      (Or.inr (Or.inr (Or.inr (Or.inr (Or.inl rfl))))) rfl).2.2 rfl

/-- C9.  Width-dependent rules: an OpTypeInt instruction requires Int64 (11),
Int16 (22) or Int8 (39) exactly when its decoded bit-width is 64, 16 or 8,
and nothing for any other width; an OpTypeFloat requires Float64 (10) or
Float16 (9) exactly for widths 64 or 16; an OpTypeVector requires Vector16
(7) exactly when its component count is 8 or 16 (whereupon Vector16's
prerequisite Kernel (6) is also enabled); and a function containing only a
64-bit integer type instruction resolves to capability set {Int64}. -/
theorem claim9_width_rules (ST : SPIRVSubtarget) (defOpcode : Nat → Opcode)
    (a w b : Nat) :
    (addInstrRequirements ST defOpcode ⟨Opcode.OpTypeInt, [a, w, b]⟩ ⟨[], []⟩ =
      (none, ⟨if w = 64 then [11] else if w = 16 then [22]
        else if w = 8 then [39] else [], []⟩)) ∧
    (addInstrRequirements ST defOpcode ⟨Opcode.OpTypeFloat, [a, w]⟩ ⟨[], []⟩ =
      (none, ⟨if w = 64 then [10] else if w = 16 then [9] else [], []⟩)) ∧
    (addInstrRequirements ST defOpcode ⟨Opcode.OpTypeVector, [a, b, w]⟩ ⟨[], []⟩ =
      (none, ⟨if w = 8 ∨ w = 16 then [7, 6] else [], []⟩)) ∧
    runOnMachineFunction ST defOpcode [⟨Opcode.OpTypeInt, [1, 64, 0]⟩] =
      (none, ⟨[11], []⟩) := by
  refine ⟨?_, ?_, ?_, ?_⟩
  · simp only [addInstrRequirements, withOperand]
    have hop : ([a, w, b] : List Nat)[1]? = some w := rfl
    rw [hop]
    dsimp only
    by_cases h64 : w = 64
    · subst h64
      decide
    · rw [if_neg h64, if_neg h64]
      by_cases h16 : w = 16
      · subst h16
        decide
      · rw [if_neg h16, if_neg h16]
        by_cases h8 : w = 8
        · subst h8
          decide
        · rw [if_neg h8, if_neg h8]
  · simp only [addInstrRequirements, withOperand]
    have hop : ([a, w] : List Nat)[1]? = some w := rfl
    rw [hop]
    dsimp only
    by_cases h64 : w = 64
    · subst h64
      decide
    · rw [if_neg h64, if_neg h64]
      by_cases h16 : w = 16
      · subst h16
        decide
      · rw [if_neg h16, if_neg h16]
  · simp only [addInstrRequirements, withOperand]
    have hop : ([a, b, w] : List Nat)[2]? = some w := rfl
    rw [hop]
    dsimp only
    by_cases hn : w = 8 ∨ w = 16
    · rw [if_pos hn, if_pos hn]
      have h76 : enableCapability capFuel [] 7 = [7, 6] := by decide
      unfold addCapability
      rw [h76]
    · rw [if_neg hn, if_neg hn]
  · unfold runOnMachineFunction
    rw [List.foldl_cons, List.foldl_nil]
    unfold processInstr
    simp only [andThenR, addInstrRequirements, withOperand]
    decide

/-- Witness for C9: the width rules evaluated at integer widths 64 and 32 and
at a 16-lane vector. -/
theorem claim9_width_rules_witness :
    (addInstrRequirements ⟨false, false, true, 0, 0, 0, true, true, ⟨[], []⟩, []⟩
        (fun _ => Opcode.OpOther) ⟨Opcode.OpTypeInt, [1, 64, 0]⟩ ⟨[], []⟩ =
      (none, ⟨[11], []⟩)) ∧
    (addInstrRequirements ⟨false, false, true, 0, 0, 0, true, true, ⟨[], []⟩, []⟩
        (fun _ => Opcode.OpOther) ⟨Opcode.OpTypeInt, [1, 32, 0]⟩ ⟨[], []⟩ =
      (none, ⟨[], []⟩)) ∧
    (addInstrRequirements ⟨false, false, true, 0, 0, 0, true, true, ⟨[], []⟩, []⟩
        (fun _ => Opcode.OpOther) ⟨Opcode.OpTypeVector, [1, 2, 16]⟩ ⟨[], []⟩ =
      (none, ⟨[7, 6], []⟩)) := by
  refine ⟨?_, ?_, ?_⟩
  · have h := (claim9_width_rules ⟨false, false, true, 0, 0, 0, true, true, ⟨[], []⟩, []⟩
      (fun _ => Opcode.OpOther) 1 64 0).1
    simpa using h
  · have h := (claim9_width_rules ⟨false, false, true, 0, 0, 0, true, true, ⟨[], []⟩, []⟩
      (fun _ => Opcode.OpOther) 1 32 0).1
    simpa using h
  · have h := (claim9_width_rules ⟨false, false, true, 0, 0, 0, true, true, ⟨[], []⟩, []⟩
      (fun _ => Opcode.OpOther) 1 16 2).2.2.1
    simpa using h

/-- The extension part of `addRequirements` can only fail with the
unmet-extension error, never with a malformed-instruction fault. -/
theorem addExtension_foldl_fst (ST : SPIRVSubtarget) (exts : List Nat) :
    ∀ acc : ResolveResult, acc.1 ≠ some Err.malformedInstruction →
      (exts.foldl (addExtension ST) acc).1 ≠ some Err.malformedInstruction := by
  induction exts with
  | nil => intro acc h; exact h
  | cons e exts ih =>
    intro acc h
    rw [List.foldl_cons]
    refine ih _ ?_
    obtain ⟨e?, r1⟩ := acc
    cases e? with
    | some err => exact h
    | none =>
      simp only [addExtension, andThenR]
      by_cases hc : canUseExtension ST e
      · rw [if_pos hc]
        simp
      · rw [if_neg hc]
        simp

/-- Requirement bundles can only fail with unmet-requirement errors, never
with a malformed-instruction fault. -/
theorem addRequirements_fst (ST : SPIRVSubtarget) (rq : Requirement)
    (r : RequirementHandler) :
    (addRequirements ST rq r).1 ≠ some Err.malformedInstruction := by
  have hext : ∀ r1 : RequirementHandler,
      (addExtRequirements ST rq.exts rq.minVer rq.maxVer r1).1 ≠
        some Err.malformedInstruction := by
    intro r1
    unfold addExtRequirements
    by_cases hw : verInWindow ST.targetSPIRVVersion rq.minVer rq.maxVer
    · rw [if_pos hw]
      simp
    · rw [if_neg hw]
      exact addExtension_foldl_fst ST rq.exts (none, r1) (by simp)
  unfold addRequirements
  by_cases h1 : rq.altCaps.isEmpty
  · rw [if_pos h1]
    simp only [andThenR]
    exact hext r
  · rw [if_neg h1]
    by_cases h2 : rq.altCaps.any (fun a => a.all (fun c => c ∈ r.caps))
    · rw [if_pos h2]
      simp only [andThenR]
      exact hext r
    · rw [if_neg h2]
      cases hf : rq.altCaps.find? (fun a => a.all (fun c => canUseCapability ST c)) with
      | some a =>
        show (andThenR (none, { r with caps := enableCapabilityList capFuel r.caps a })
          (addExtRequirements ST rq.exts rq.minVer rq.maxVer)).1 ≠
            some Err.malformedInstruction
        simp only [andThenR]
        exact hext _
      | none =>
        show (andThenR (some Err.unmetCapabilityRequirement, r)
          (addExtRequirements ST rq.exts rq.minVer rq.maxVer)).1 ≠
            some Err.malformedInstruction
        simp [andThenR]

theorem andThenR_fst (x : ResolveResult) (f : RequirementHandler → ResolveResult)
    (hx : x.1 ≠ some Err.malformedInstruction)
    (hf : ∀ r, (f r).1 ≠ some Err.malformedInstruction) :
    (andThenR x f).1 ≠ some Err.malformedInstruction := by
  obtain ⟨e?, r⟩ := x
  cases e? with
  | none => exact hf r
  | some err => exact hx

theorem addDimReqs_fst (ST : SPIRVSubtarget) (dim : Nat) (a m ns : Bool)
    (r1 : RequirementHandler) :
    (addDimReqs ST dim a m ns r1).1 ≠ some Err.malformedInstruction := by
  unfold addDimReqs
  split
  · exact addRequirements_fst ST _ r1
  · by_cases hm : m && ns
    · rw [if_pos hm]
      exact addRequirements_fst ST _ r1
    · rw [if_neg hm]
      simp
  · simp
  · refine andThenR_fst _ _ (addRequirements_fst ST _ r1) ?_
    intro r2
    by_cases ha : a
    · rw [if_pos ha]
      exact addRequirements_fst ST _ r2
    · rw [if_neg ha]
      simp
  · exact addRequirements_fst ST _ r1
  · exact addRequirements_fst ST _ r1
  · exact addRequirements_fst ST _ r1
  · simp

/-- C8.  An OpTypeImage instruction with fewer than 8 operands is a
malformed-instruction fault; with at least 8 operands, every operand access
of the image decision rule (indices 2, 4, 5, 6, 7, and 8 only behind the
operand-count guard) is in bounds and the rule never raises the
malformed-instruction fault. -/
theorem claim8_image_operand_safety (ST : SPIRVSubtarget)
    (defOpcode : Nat → Opcode) (MI : Instr) (r : RequirementHandler)
    (hop : MI.opcode = Opcode.OpTypeImage) :
    (MI.operands.length < 8 →
      addInstrRequirements ST defOpcode MI r = (some Err.malformedInstruction, r)) ∧
    (8 ≤ MI.operands.length →
      (addInstrRequirements ST defOpcode MI r).1 ≠ some Err.malformedInstruction) := by
  obtain ⟨op, ops⟩ := MI
  simp only at hop
  subst hop
  simp only [addInstrRequirements]
  constructor
  · intro hlen
    unfold addOpTypeImageReqs
    rw [if_pos hlen]
  · intro hlen
    have hlen' : 8 ≤ ops.length := hlen
    unfold addOpTypeImageReqs withOperand
    rw [if_neg (by simp; omega)]
    have h7 : ops[7]? = some ops[7] := List.getElem?_eq_getElem (by omega)
    rw [h7]
    dsimp only
    refine andThenR_fst _ _ (addRequirements_fst ST _ r) ?_
    intro r1
    have h4 : ops[4]? = some ops[4] := List.getElem?_eq_getElem (by omega)
    have h5 : ops[5]? = some ops[5] := List.getElem?_eq_getElem (by omega)
    have h6 : ops[6]? = some ops[6] := List.getElem?_eq_getElem (by omega)
    have h2 : ops[2]? = some ops[2] := List.getElem?_eq_getElem (by omega)
    rw [h4, h5, h6, h2]
    dsimp only
    refine andThenR_fst _ _ (addDimReqs_fst ST _ _ _ _ r1) ?_
    intro r2
    by_cases hk : isKernel ST
    · rw [if_pos hk]
      by_cases h8 : ops.length > 8
      · rw [if_pos h8]
        have h8o : ops[8]? = some ops[8] := List.getElem?_eq_getElem (by omega)
        rw [h8o]
        dsimp only
        by_cases haq : ops[8] = 2
        · rw [if_pos haq]
          exact addRequirements_fst ST _ r2
        · rw [if_neg haq]
          exact addRequirements_fst ST _ r2
      · rw [if_neg h8]
        exact addRequirements_fst ST _ r2
    · rw [if_neg hk]
      simp

/-- Witness for C8: a seven-operand OpTypeImage is malformed; an eight-operand
one resolves without the malformed-instruction fault. -/
theorem claim8_image_operand_safety_witness :
    (addInstrRequirements ⟨false, false, true, 0, 0, 0, true, true, ⟨[], []⟩, []⟩
        (fun _ => Opcode.OpOther) ⟨Opcode.OpTypeImage, [1, 2, 0, 0, 0, 0, 2]⟩ ⟨[], []⟩ =
      (some Err.malformedInstruction, ⟨[], []⟩)) ∧
    (addInstrRequirements ⟨false, false, true, 0, 0, 0, true, true, ⟨[], []⟩, []⟩
        (fun _ => Opcode.OpOther) ⟨Opcode.OpTypeImage, [1, 2, 0, 0, 0, 0, 2, 0]⟩
        ⟨[], []⟩).1 ≠ some Err.malformedInstruction := by
  constructor
  · exact (claim8_image_operand_safety ⟨false, false, true, 0, 0, 0, true, true, ⟨[], []⟩, []⟩
      (fun _ => Opcode.OpOther) ⟨Opcode.OpTypeImage, [1, 2, 0, 0, 0, 0, 2]⟩ ⟨[], []⟩
      rfl).1 (by decide)
  · exact (claim8_image_operand_safety ⟨false, false, true, 0, 0, 0, true, true, ⟨[], []⟩, []⟩
      (fun _ => Opcode.OpOther) ⟨Opcode.OpTypeImage, [1, 2, 0, 0, 0, 0, 2, 0]⟩ ⟨[], []⟩
      rfl).2 (by decide)

/-- C5.  For OpDecorate / OpDecorateId / OpDecorateString the decoration kind
sits at operand index 1, for OpMemberDecorate / OpMemberDecorateString at
index 2; the kind's requirements are added, and when the kind is BuiltIn (11)
the requirements of the built-in selected by the immediately following
operand are additionally added — a two-level lookup; in particular, after an
Int64-requiring instruction, decorating with the built-in Position (which
requires Shader) resolves to {Int64, Shader} plus Shader's prerequisite
Matrix. -/
theorem claim5_two_level_decoration (ST : SPIRVSubtarget)
    (defOpcode : Nat → Opcode) (MI : Instr) (r : RequirementHandler) (d b : Nat) :
    ((MI.opcode = Opcode.OpDecorate ∨ MI.opcode = Opcode.OpDecorateId ∨
        MI.opcode = Opcode.OpDecorateString) → MI.operands[1]? = some d →
      (d ≠ 11 → addInstrRequirements ST defOpcode MI r =
        addRequirements ST (getDecorationRequirements d) r) ∧
      (d = 11 → MI.operands[2]? = some b →
        addInstrRequirements ST defOpcode MI r =
          andThenR (addRequirements ST (getDecorationRequirements 11) r)
            (addRequirements ST (getBuiltInRequirements b)))) ∧
    ((MI.opcode = Opcode.OpMemberDecorate ∨
        MI.opcode = Opcode.OpMemberDecorateString) → MI.operands[2]? = some d →
      (d ≠ 11 → addInstrRequirements ST defOpcode MI r =
        addRequirements ST (getDecorationRequirements d) r) ∧
      (d = 11 → MI.operands[3]? = some b →
        addInstrRequirements ST defOpcode MI r =
          andThenR (addRequirements ST (getDecorationRequirements 11) r)
            (addRequirements ST (getBuiltInRequirements b)))) ∧
    runOnMachineFunction (mkSPIRVSubtarget ⟨true, true, false⟩) defOpcode
        [⟨Opcode.OpTypeInt, [1, 64, 0]⟩, ⟨Opcode.OpDecorate, [99, 11, 0]⟩] =
      (none, ⟨[11, 1, 0], []⟩) := by
  obtain ⟨op, ops⟩ := MI
  refine ⟨?_, ?_, ?_⟩
  · intro hop ht
    simp only at hop ht
    have hdispatch : addInstrRequirements ST defOpcode ⟨op, ops⟩ r =
        addOpDecorateReqs ST ⟨op, ops⟩ 1 r := by
      rcases hop with h | h | h <;> subst h <;> simp only [addInstrRequirements]
    rw [hdispatch]
    unfold addOpDecorateReqs withOperand
    simp only
    rw [ht]
    dsimp only
    constructor
    · intro hd
      rcases hres : addRequirements ST (getDecorationRequirements d) r with ⟨e?, r1⟩
      cases e? with
      | none =>
        simp only [andThenR]
        rw [if_neg hd]
      | some err =>
        simp only [andThenR]
    · intro hd hb
      subst hd
      rw [hb]
      rcases hres : addRequirements ST (getDecorationRequirements 11) r with ⟨e?, r1⟩
      cases e? with
      | none =>
        simp only [andThenR]
        rw [if_pos trivial]
      | some err =>
        simp only [andThenR]
  · intro hop ht
    simp only at hop ht
    have hdispatch : addInstrRequirements ST defOpcode ⟨op, ops⟩ r =
        addOpDecorateReqs ST ⟨op, ops⟩ 2 r := by
      rcases hop with h | h <;> subst h <;> simp only [addInstrRequirements]
    rw [hdispatch]
    unfold addOpDecorateReqs withOperand
    simp only
    rw [ht]
    dsimp only
    constructor
    · intro hd
      rcases hres : addRequirements ST (getDecorationRequirements d) r with ⟨e?, r1⟩
      cases e? with
      | none =>
        simp only [andThenR]
        rw [if_neg hd]
      | some err =>
        simp only [andThenR]
    · intro hd hb
      subst hd
      rw [hb]
      rcases hres : addRequirements ST (getDecorationRequirements 11) r with ⟨e?, r1⟩
      cases e? with
      | none =>
        simp only [andThenR]
        rw [if_pos trivial]
      | some err =>
        simp only [andThenR]
  · unfold runOnMachineFunction
    rw [List.foldl_cons, List.foldl_cons, List.foldl_nil]
    unfold processInstr
    simp only [andThenR, addInstrRequirements, withOperand]
    have h1 : ([1, 64, 0] : List Nat)[1]? = some 64 := rfl
    rw [h1]
    dsimp only
    rw [if_pos rfl]
    have hint : addCapability ⟨[], []⟩ 11 = ⟨[11], []⟩ := by decide
    rw [hint]
    unfold addOpDecorateReqs withOperand
    simp only
    have h2 : ([99, 11, 0] : List Nat)[1]? = some 11 := rfl
    rw [h2]
    dsimp only
    have hdec : addRequirements (mkSPIRVSubtarget ⟨true, true, false⟩)
        (getDecorationRequirements 11) ⟨[11], []⟩ = (none, ⟨[11], []⟩) := rfl
    rw [hdec]
    simp only [andThenR]
    rw [if_pos trivial]
    have h3 : ([99, 11, 0] : List Nat)[1 + 1]? = some 0 := rfl
    rw [h3]
    dsimp only
    have hpos : addRequirements (mkSPIRVSubtarget ⟨true, true, false⟩)
        (getBuiltInRequirements 0) ⟨[11], []⟩ = (none, ⟨[11, 1, 0], []⟩) := by
      unfold addRequirements
      have hner : ((getBuiltInRequirements 0).altCaps.isEmpty) = false := rfl
      rw [hner]
      have hnsat : ((getBuiltInRequirements 0).altCaps.any
          (fun a => a.all (fun c => c ∈ ([11] : List Nat)))) = false := by decide
      have hcast : ((getBuiltInRequirements 0).altCaps.any
          (fun a => a.all (fun c => c ∈ (⟨[11], []⟩ : RequirementHandler).caps))) = false :=
        hnsat
      rw [hcast]
      have hfind : ((getBuiltInRequirements 0).altCaps.find?
          (fun a => a.all (fun c => canUseCapability (mkSPIRVSubtarget ⟨true, true, false⟩) c))) =
          some [1] := by
        have hcan : canUseCapability (mkSPIRVSubtarget ⟨true, true, false⟩) 1 = true := by
          unfold canUseCapability
          have h : (mkSPIRVSubtarget ⟨true, true, false⟩).capSt.avail =
              (updateCapabilitiesFromFeatures
                ⟨initAvailableCapabilities true (mkVer 1 4 0) 0 true true, []⟩).avail := rfl
          rw [h]
          decide
        have hbr : (getBuiltInRequirements 0).altCaps = [[1]] := by decide
        rw [hbr]
        rw [List.find?_cons_of_pos]
        simp [hcan]
      rw [hfind]
      simp only [Bool.false_eq_true, if_false, andThenR]
      have hcaps : enableCapabilityList capFuel [11] [1] = [11, 1, 0] := by decide
      have hwin : verInWindow (mkSPIRVSubtarget ⟨true, true, false⟩).targetSPIRVVersion
          (getBuiltInRequirements 0).minVer (getBuiltInRequirements 0).maxVer = true := rfl
      unfold addExtRequirements
      rw [hwin]
      simp only [if_true]
      rw [hcaps]
    rw [hpos]

/-- Witness for C5: a member-decoration carrying SpecId (kind 1, no built-in
level) adds exactly the SpecId requirement; the claim's built-in example is
the closed third conjunct, re-derived here at OpDecorateId. -/
theorem claim5_two_level_decoration_witness :
    (addInstrRequirements (mkSPIRVSubtarget ⟨true, true, false⟩)
        (fun _ => Opcode.OpOther) ⟨Opcode.OpMemberDecorate, [7, 0, 1, 4]⟩ ⟨[], []⟩ =
      addRequirements (mkSPIRVSubtarget ⟨true, true, false⟩)
        (getDecorationRequirements 1) ⟨[], []⟩) ∧
    (addInstrRequirements (mkSPIRVSubtarget ⟨true, true, false⟩)
        (fun _ => Opcode.OpOther) ⟨Opcode.OpDecorateId, [7, 11, 0]⟩ ⟨[], []⟩ =
      andThenR (addRequirements (mkSPIRVSubtarget ⟨true, true, false⟩)
          (getDecorationRequirements 11) ⟨[], []⟩)
        (addRequirements (mkSPIRVSubtarget ⟨true, true, false⟩)
          (getBuiltInRequirements 0))) := by
  constructor
  · exact ((claim5_two_level_decoration (mkSPIRVSubtarget ⟨true, true, false⟩)
      (fun _ => Opcode.OpOther) ⟨Opcode.OpMemberDecorate, [7, 0, 1, 4]⟩ ⟨[], []⟩ 1 0).2.1
      (Or.inl rfl) rfl).1 (by decide)
  · exact ((claim5_two_level_decoration (mkSPIRVSubtarget ⟨true, true, false⟩)
      (fun _ => Opcode.OpOther) ⟨Opcode.OpDecorateId, [7, 11, 0]⟩ ⟨[], []⟩ 11 0).1
      (Or.inr (Or.inl rfl)) rfl).2 rfl rfl

/-- Memberwise growth order on accumulator states. -/
def rhLE (r1 r2 : RequirementHandler) : Prop :=
  (∀ x ∈ r1.caps, x ∈ r2.caps) ∧ (∀ x ∈ r1.exts, x ∈ r2.exts)

theorem rhLE_refl (r : RequirementHandler) : rhLE r r :=
  ⟨fun _ hx => hx, fun _ hx => hx⟩

theorem rhLE_trans {r1 r2 r3 : RequirementHandler} (h1 : rhLE r1 r2)
    (h2 : rhLE r2 r3) : rhLE r1 r3 :=
  ⟨fun x hx => h2.1 x (h1.1 x hx), fun x hx => h2.2 x (h1.2 x hx)⟩

/-- An accumulator operation only grows the state (monotone union). -/
def MonoOp (op : RequirementHandler → ResolveResult) : Prop :=
  ∀ r, rhLE r (op r).2

/-- After a successful run, re-running the operation on any state at least as
large is a no-op. -/
def StableOp (op : RequirementHandler → ResolveResult) : Prop :=
  ∀ r r', op r = (none, r') → ∀ r2, rhLE r' r2 → op r2 = (none, r2)

/-- An operation preserves duplicate-freeness of both sets. -/
def NodupOp (op : RequirementHandler → ResolveResult) : Prop :=
  ∀ r, r.caps.Nodup → r.exts.Nodup →
    (op r).2.caps.Nodup ∧ (op r).2.exts.Nodup

theorem mono_andThen {A B : RequirementHandler → ResolveResult}
    (hA : MonoOp A) (hB : MonoOp B) : MonoOp (fun r => andThenR (A r) B) := by
  intro r
  rcases hAr : A r with ⟨e?, rA⟩
  have h1 : rhLE r rA := by have := hA r; rw [hAr] at this; exact this
  show rhLE r (andThenR (A r) B).2
  rw [hAr]
  cases e? with
  | some err => simpa [andThenR] using h1
  | none =>
    simp only [andThenR]
    exact rhLE_trans h1 (hB rA)

theorem stable_andThen {A B : RequirementHandler → ResolveResult}
    (hBm : MonoOp B) (hAs : StableOp A) (hBs : StableOp B) :
    StableOp (fun r => andThenR (A r) B) := by
  intro r r' h r2 hle
  have h0 : andThenR (A r) B = (none, r') := h
  rcases hAr : A r with ⟨e?, rA⟩
  rw [hAr] at h0
  cases e? with
  | some err => simp [andThenR] at h0
  | none =>
    simp only [andThenR] at h0
    have hrA : rhLE rA r' := by have := hBm rA; rw [h0] at this; exact this
    have hA2 : A r2 = (none, r2) := hAs r rA hAr r2 (rhLE_trans hrA hle)
    show andThenR (A r2) B = (none, r2)
    rw [hA2]
    simp only [andThenR]
    exact hBs rA r' h0 r2 hle

theorem nodup_andThen {A B : RequirementHandler → ResolveResult}
    (hA : NodupOp A) (hB : NodupOp B) : NodupOp (fun r => andThenR (A r) B) := by
  intro r hc he
  rcases hAr : A r with ⟨e?, rA⟩
  have h1 : rA.caps.Nodup ∧ rA.exts.Nodup := by
    have := hA r hc he; rw [hAr] at this; exact this
  show (andThenR (A r) B).2.caps.Nodup ∧ (andThenR (A r) B).2.exts.Nodup
  rw [hAr]
  cases e? with
  | some err => simpa [andThenR] using h1
  | none =>
    simp only [andThenR]
    exact hB rA h1.1 h1.2

theorem mono_const (e? : Option Err) : MonoOp (fun r => (e?, r)) :=
  fun r => rhLE_refl r

theorem stable_error (e : Err) : StableOp (fun r => ((some e : Option Err), r)) := by
  intro r r' h
  cases h

theorem stable_id : StableOp (fun r => ((none : Option Err), r)) := by
  intro r r' h r2 hle
  cases h
  rfl

theorem nodup_const (e? : Option Err) : NodupOp (fun r => (e?, r)) :=
  fun r hc he => ⟨hc, he⟩

/-- `addCapability` as an accumulator operation: monotone, stable, and
duplicate-free. -/
theorem mono_addCapability (c : Nat) :
    MonoOp (fun r => ((none : Option Err), addCapability r c)) := by
  intro r
  refine ⟨?_, fun x hx => hx⟩
  intro x hx
  exact (enableCapabilityList_seg capFuel r.caps [c]).subset hx

theorem stable_addCapability (c : Nat) :
    StableOp (fun r => ((none : Option Err), addCapability r c)) := by
  intro r r' h r2 hle
  have hc : c ∈ r'.caps := by
    have h2 : r' = addCapability r c := by cases h; rfl
    rw [h2]
    exact enableCapability_mem_self capFuel r.caps c (by unfold capFuel; omega)
  have hc2 : c ∈ r2.caps := hle.1 c hc
  have heq : addCapability r2 c = r2 := by
    unfold addCapability
    rw [enableCapability_mem_noop capFuel r2.caps c hc2 (by unfold capFuel; omega)]
  show ((none : Option Err), addCapability r2 c) = (none, r2)
  rw [heq]

theorem nodup_addCapability (c : Nat) :
    NodupOp (fun r => ((none : Option Err), addCapability r c)) :=
  fun r hc he => ⟨enableCapabilityList_nodup capFuel r.caps [c] hc, he⟩

/-- Freezing of the extension fold on an error accumulator. -/
theorem extFold_frozen (ST : SPIRVSubtarget) (exts : List Nat) (e : Err)
    (r : RequirementHandler) :
    exts.foldl (addExtension ST) (some e, r) = (some e, r) := by
  induction exts with
  | nil => rfl
  | cons x exts ih => rw [List.foldl_cons]; exact ih

/-- Monotonicity of the extension fold. -/
theorem extFold_mono (ST : SPIRVSubtarget) (exts : List Nat) :
    ∀ acc : ResolveResult, rhLE acc.2 (exts.foldl (addExtension ST) acc).2 := by
  induction exts with
  | nil => intro acc; exact rhLE_refl _
  | cons e exts ih =>
    intro acc
    rw [List.foldl_cons]
    refine rhLE_trans ?_ (ih (addExtension ST acc e))
    obtain ⟨e?, r1⟩ := acc
    cases e? with
    | some err => exact rhLE_refl _
    | none =>
      simp only [addExtension, andThenR]
      by_cases hc : canUseExtension ST e
      · rw [if_pos hc]
        by_cases hm : e ∈ r1.exts
        · rw [if_pos hm]; exact rhLE_refl _
        · rw [if_neg hm]
          exact ⟨fun x hx => hx, fun x hx => List.mem_append_left [e] hx⟩
      · rw [if_neg hc]
        exact rhLE_refl _

/-- A successful extension fold certifies that every listed extension is
available and was recorded. -/
theorem extFold_post (ST : SPIRVSubtarget) (exts : List Nat) :
    ∀ r r', exts.foldl (addExtension ST) (none, r) = (none, r') →
      ∀ e ∈ exts, canUseExtension ST e = true ∧ e ∈ r'.exts := by
  induction exts with
  | nil => intro r r' h e he; simp at he
  | cons x exts ih =>
    intro r r' h e he
    rw [List.foldl_cons] at h
    by_cases hc : canUseExtension ST x
    · have hstep : addExtension ST ((none : Option Err), r) x =
          (none, if x ∈ r.exts then r else { r with exts := r.exts ++ [x] }) := by
        simp only [addExtension, andThenR]
        rw [if_pos hc]
      rw [hstep] at h
      rcases List.mem_cons.mp he with rfl | hrest
      · refine ⟨hc, ?_⟩
        have hmid : e ∈ (if e ∈ r.exts then r else
            { r with exts := r.exts ++ [e] }).exts := by
          by_cases hm : e ∈ r.exts
          · rw [if_pos hm]; exact hm
          · rw [if_neg hm]
            exact List.mem_append_right r.exts (List.mem_cons_self e [])
        have hmono := extFold_mono ST exts ((none : Option Err),
          if e ∈ r.exts then r else { r with exts := r.exts ++ [e] })
        rw [h] at hmono
        exact hmono.2 e hmid
      · exact ih _ r' h e hrest
    · have hstep : addExtension ST ((none : Option Err), r) x =
          (some Err.unmetExtensionRequirement, r) := by
        simp only [addExtension, andThenR]
        rw [if_neg hc]
      rw [hstep, extFold_frozen] at h
      cases h

/-- Re-running the extension fold on a state that already holds every listed
(available) extension is a no-op. -/
theorem extFold_id (ST : SPIRVSubtarget) (exts : List Nat) :
    ∀ r2 : RequirementHandler,
      (∀ e ∈ exts, canUseExtension ST e = true ∧ e ∈ r2.exts) →
      exts.foldl (addExtension ST) (none, r2) = (none, r2) := by
  induction exts with
  | nil => intro r2 h; rfl
  | cons x exts ih =>
    intro r2 h
    rw [List.foldl_cons]
    have hx := h x (List.mem_cons_self x exts)
    have hstep : addExtension ST ((none : Option Err), r2) x = (none, r2) := by
      simp only [addExtension, andThenR]
      rw [if_pos hx.1, if_pos hx.2]
    rw [hstep]
    exact ih r2 (fun e he => h e (List.mem_cons_of_mem x he))

theorem extFold_nodup (ST : SPIRVSubtarget) (exts : List Nat) :
    ∀ acc : ResolveResult, acc.2.caps.Nodup → acc.2.exts.Nodup →
      (exts.foldl (addExtension ST) acc).2.caps.Nodup ∧
      (exts.foldl (addExtension ST) acc).2.exts.Nodup := by
  induction exts with
  | nil => intro acc hc he; exact ⟨hc, he⟩
  | cons e exts ih =>
    intro acc hc he
    rw [List.foldl_cons]
    obtain ⟨e?, r1⟩ := acc
    cases e? with
    | some err => exact ih _ hc he
    | none =>
      refine ih _ ?_ ?_ <;> simp only [addExtension, andThenR]
      · by_cases hcu : canUseExtension ST e
        · rw [if_pos hcu]
          by_cases hm : e ∈ r1.exts
          · rw [if_pos hm]; exact hc
          · rw [if_neg hm]; exact hc
        · rw [if_neg hcu]; exact hc
      · by_cases hcu : canUseExtension ST e
        · rw [if_pos hcu]
          by_cases hm : e ∈ r1.exts
          · rw [if_pos hm]; exact he
          · rw [if_neg hm]
            exact List.nodup_append.mpr ⟨he, List.nodup_singleton e, by
              intro x hx hxe
              have : x = e := by simpa using hxe
              exact hm (this ▸ hx)⟩
        · rw [if_neg hcu]; exact he

theorem mono_addExtRequirements (ST : SPIRVSubtarget) (exts : List Nat)
    (minV maxV : Nat) : MonoOp (addExtRequirements ST exts minV maxV) := by
  intro r
  unfold addExtRequirements
  by_cases hw : verInWindow ST.targetSPIRVVersion minV maxV
  · rw [if_pos hw]; exact rhLE_refl r
  · rw [if_neg hw]; exact extFold_mono ST exts (none, r)

theorem stable_addExtRequirements (ST : SPIRVSubtarget) (exts : List Nat)
    (minV maxV : Nat) : StableOp (addExtRequirements ST exts minV maxV) := by
  intro r r' h r2 hle
  unfold addExtRequirements at h ⊢
  by_cases hw : verInWindow ST.targetSPIRVVersion minV maxV
  · rw [if_pos hw] at h ⊢
  · rw [if_neg hw] at h ⊢
    refine extFold_id ST exts r2 ?_
    intro e he
    have hp := extFold_post ST exts r r' h e he
    exact ⟨hp.1, hle.2 e hp.2⟩

theorem nodup_addExtRequirements (ST : SPIRVSubtarget) (exts : List Nat)
    (minV maxV : Nat) : NodupOp (addExtRequirements ST exts minV maxV) := by
  intro r hc he
  unfold addExtRequirements
  by_cases hw : verInWindow ST.targetSPIRVVersion minV maxV
  · rw [if_pos hw]; exact ⟨hc, he⟩
  · rw [if_neg hw]; exact extFold_nodup ST exts (none, r) hc he

/-- The capability part of `addRequirements`, as a function of the state. -/
def addCapRequirements (ST : SPIRVSubtarget) (rq : Requirement)
    (r : RequirementHandler) : ResolveResult :=
  if rq.altCaps.isEmpty then (none, r)
  else if rq.altCaps.any (fun a => a.all (fun c => c ∈ r.caps)) then (none, r)
  else
    match rq.altCaps.find? (fun a => a.all (fun c => canUseCapability ST c)) with
    | some a => (none, { r with caps := enableCapabilityList capFuel r.caps a })
    | none => (some Err.unmetCapabilityRequirement, r)

theorem addRequirements_eq (ST : SPIRVSubtarget) (rq : Requirement)
    (r : RequirementHandler) :
    addRequirements ST rq r =
      andThenR (addCapRequirements ST rq r)
        (addExtRequirements ST rq.exts rq.minVer rq.maxVer) := rfl

theorem mono_addCapRequirements (ST : SPIRVSubtarget) (rq : Requirement) :
    MonoOp (addCapRequirements ST rq) := by
  intro r
  unfold addCapRequirements
  by_cases h1 : rq.altCaps.isEmpty
  · rw [if_pos h1]; exact rhLE_refl r
  · rw [if_neg h1]
    by_cases h2 : rq.altCaps.any (fun a => a.all (fun c => c ∈ r.caps))
    · rw [if_pos h2]; exact rhLE_refl r
    · rw [if_neg h2]
      cases hf : rq.altCaps.find? (fun a => a.all (fun c => canUseCapability ST c)) with
      | some a =>
        refine ⟨?_, fun x hx => hx⟩
        intro x hx
        exact (enableCapabilityList_seg capFuel r.caps a).subset hx
      | none => exact rhLE_refl r

theorem stable_addCapRequirements (ST : SPIRVSubtarget) (rq : Requirement)
    (hl : ∀ a ∈ rq.altCaps, a.length ≤ 3) :
    StableOp (addCapRequirements ST rq) := by
  intro r r' h r2 hle
  unfold addCapRequirements at h ⊢
  by_cases h1 : rq.altCaps.isEmpty
  · rw [if_pos h1] at h ⊢
  · rw [if_neg h1] at h ⊢
    by_cases h2 : rq.altCaps.any (fun a => a.all (fun c => c ∈ r.caps))
    · rw [if_pos h2] at h
      cases h
      obtain ⟨a, ha, hall⟩ := List.any_eq_true.mp h2
      have h2' : rq.altCaps.any (fun a => a.all (fun c => c ∈ r2.caps)) = true := by
        rw [List.any_eq_true]
        refine ⟨a, ha, ?_⟩
        rw [List.all_eq_true]
        intro c hc
        have := List.all_eq_true.mp hall c hc
        simp only [decide_eq_true_eq] at this ⊢
        exact hle.1 c this
      rw [if_pos h2']
    · rw [if_neg h2] at h
      cases hf : rq.altCaps.find? (fun a => a.all (fun c => canUseCapability ST c)) with
      | none => rw [hf] at h; cases h
      | some a =>
        rw [hf] at h
        cases h
        have hmem : ∀ c ∈ a, c ∈ enableCapabilityList capFuel r.caps a :=
          (enableCapabilityList_spec capFuel r.caps a
            (capFuel_adequate r.caps (hl a (List.mem_of_find?_eq_some hf)))).1
        have h2' : rq.altCaps.any (fun a => a.all (fun c => c ∈ r2.caps)) = true := by
          rw [List.any_eq_true]
          refine ⟨a, List.mem_of_find?_eq_some hf, ?_⟩
          rw [List.all_eq_true]
          intro c hc
          simp only [decide_eq_true_eq]
          exact hle.1 c (hmem c hc)
        rw [if_pos h2']

theorem nodup_addCapRequirements (ST : SPIRVSubtarget) (rq : Requirement) :
    NodupOp (addCapRequirements ST rq) := by
  intro r hc he
  unfold addCapRequirements
  by_cases h1 : rq.altCaps.isEmpty
  · rw [if_pos h1]; exact ⟨hc, he⟩
  · rw [if_neg h1]
    by_cases h2 : rq.altCaps.any (fun a => a.all (fun c => c ∈ r.caps))
    · rw [if_pos h2]; exact ⟨hc, he⟩
    · rw [if_neg h2]
      cases hf : rq.altCaps.find? (fun a => a.all (fun c => canUseCapability ST c)) with
      | some a => exact ⟨enableCapabilityList_nodup capFuel r.caps a hc, he⟩
      | none => exact ⟨hc, he⟩

theorem mono_addRequirements (ST : SPIRVSubtarget) (rq : Requirement) :
    MonoOp (addRequirements ST rq) := by
  intro r
  rw [addRequirements_eq]
  exact mono_andThen (mono_addCapRequirements ST rq)
    (mono_addExtRequirements ST rq.exts rq.minVer rq.maxVer) r

theorem stable_addRequirements (ST : SPIRVSubtarget) (rq : Requirement)
    (hl : ∀ a ∈ rq.altCaps, a.length ≤ 3) :
    StableOp (addRequirements ST rq) := by
  intro r r' h r2 hle
  rw [addRequirements_eq] at h ⊢
  exact stable_andThen (mono_addExtRequirements ST rq.exts rq.minVer rq.maxVer)
    (stable_addCapRequirements ST rq hl)
    (stable_addExtRequirements ST rq.exts rq.minVer rq.maxVer) r r' h r2 hle

theorem nodup_addRequirements (ST : SPIRVSubtarget) (rq : Requirement) :
    NodupOp (addRequirements ST rq) := by
  intro r hc he
  rw [addRequirements_eq]
  exact nodup_andThen (nodup_addCapRequirements ST rq)
    (nodup_addExtRequirements ST rq.exts rq.minVer rq.maxVer) r hc he

theorem mono_withOperand (MI : Instr) (i : Nat)
    (g : Nat → RequirementHandler → ResolveResult) (hg : ∀ x, MonoOp (g x)) :
    MonoOp (fun r => withOperand MI i r (fun x => g x r)) := by
  intro r
  show rhLE r (withOperand MI i r (fun x => g x r)).2
  unfold withOperand
  cases hx : MI.operands[i]? with
  | none => exact rhLE_refl r
  | some x => exact hg x r

theorem stable_withOperand (MI : Instr) (i : Nat)
    (g : Nat → RequirementHandler → ResolveResult) (hg : ∀ x, StableOp (g x)) :
    StableOp (fun r => withOperand MI i r (fun x => g x r)) := by
  intro r r' h r2 hle
  have h0 : withOperand MI i r (fun x => g x r) = (none, r') := h
  show withOperand MI i r2 (fun x => g x r2) = (none, r2)
  unfold withOperand at h0 ⊢
  cases hx : MI.operands[i]? with
  | none => rw [hx] at h0; cases h0
  | some x =>
    rw [hx] at h0
    exact hg x r r' h0 r2 hle

theorem nodup_withOperand (MI : Instr) (i : Nat)
    (g : Nat → RequirementHandler → ResolveResult) (hg : ∀ x, NodupOp (g x)) :
    NodupOp (fun r => withOperand MI i r (fun x => g x r)) := by
  intro r hc he
  show (withOperand MI i r (fun x => g x r)).2.caps.Nodup ∧
    (withOperand MI i r (fun x => g x r)).2.exts.Nodup
  unfold withOperand
  cases hx : MI.operands[i]? with
  | none => exact ⟨hc, he⟩
  | some x => exact hg x r hc he

theorem mono_addDimReqs (ST : SPIRVSubtarget) (dim : Nat) (a m ns : Bool) :
    MonoOp (addDimReqs ST dim a m ns) := by
  intro r
  unfold addDimReqs
  split
  · exact mono_addRequirements ST _ r
  · by_cases hm : m && ns
    · rw [if_pos hm]
      exact mono_addRequirements ST _ r
    · rw [if_neg hm]
      exact rhLE_refl r
  · exact rhLE_refl r
  · refine mono_andThen (mono_addRequirements ST _) ?_ r
    intro r2
    dsimp only
    by_cases ha : a
    · rw [if_pos ha]
      exact mono_addRequirements ST _ r2
    · rw [if_neg ha]
      exact rhLE_refl r2
  · exact mono_addRequirements ST _ r
  · exact mono_addRequirements ST _ r
  · exact mono_addRequirements ST _ r
  · exact rhLE_refl r

theorem stable_addDimReqs (ST : SPIRVSubtarget) (dim : Nat) (a m ns : Bool) :
    StableOp (addDimReqs ST dim a m ns) := by
  intro r r' h r2 hle
  unfold addDimReqs at h ⊢
  split at h
  · exact stable_addRequirements ST _ (getCapabilityRequirements_alt_len _) r r' h r2 hle
  · by_cases hm : m && ns
    · rw [if_pos hm] at h ⊢
      exact stable_addRequirements ST _ (getCapabilityRequirements_alt_len _) r r' h r2 hle
    · rw [if_neg hm] at h ⊢
  · cases h
    rfl
  · refine stable_andThen ?_
      (stable_addRequirements ST _ (getCapabilityRequirements_alt_len _)) ?_ r r' h r2 hle
    · intro r3
      dsimp only
      by_cases ha : a
      · rw [if_pos ha]
        exact mono_addRequirements ST _ r3
      · rw [if_neg ha]
        exact rhLE_refl r3
    · intro r3 r4 h34 r5 hle5
      have h34' : (if a = true then addRequirements ST
          (getCapabilityRequirements (if ns = true then 34 else 45)) r3
        else (none, r3)) = (none, r4) := h34
      show (if a = true then addRequirements ST
          (getCapabilityRequirements (if ns = true then 34 else 45)) r5
        else (none, r5)) = (none, r5)
      by_cases ha : a
      · rw [if_pos ha] at h34' ⊢
        exact stable_addRequirements ST _ (getCapabilityRequirements_alt_len _) r3 r4 h34' r5 hle5
      · rw [if_neg ha] at h34' ⊢
  · exact stable_addRequirements ST _ (getCapabilityRequirements_alt_len _) r r' h r2 hle
  · exact stable_addRequirements ST _ (getCapabilityRequirements_alt_len _) r r' h r2 hle
  · exact stable_addRequirements ST _ (getCapabilityRequirements_alt_len _) r r' h r2 hle
  · cases h
    rfl

theorem nodup_addDimReqs (ST : SPIRVSubtarget) (dim : Nat) (a m ns : Bool) :
    NodupOp (addDimReqs ST dim a m ns) := by
  intro r hc he
  unfold addDimReqs
  split
  · exact nodup_addRequirements ST _ r hc he
  · by_cases hm : m && ns
    · rw [if_pos hm]
      exact nodup_addRequirements ST _ r hc he
    · rw [if_neg hm]
      exact ⟨hc, he⟩
  · exact ⟨hc, he⟩
  · refine nodup_andThen (nodup_addRequirements ST _) ?_ r hc he
    intro r2 hc2 he2
    dsimp only
    by_cases ha : a
    · rw [if_pos ha]
      exact nodup_addRequirements ST _ r2 hc2 he2
    · rw [if_neg ha]
      exact ⟨hc2, he2⟩
  · exact nodup_addRequirements ST _ r hc he
  · exact nodup_addRequirements ST _ r hc he
  · exact nodup_addRequirements ST _ r hc he
  · exact ⟨hc, he⟩

theorem mono_addOpDecorateReqs (ST : SPIRVSubtarget) (MI : Instr) (idx : Nat) :
    MonoOp (addOpDecorateReqs ST MI idx) := by
  unfold addOpDecorateReqs
  refine mono_withOperand MI idx _ ?_
  intro d
  refine mono_andThen (mono_addRequirements ST _) ?_
  intro r1
  dsimp only
  by_cases hd : d = 11
  · rw [if_pos hd]
    refine mono_withOperand MI (idx + 1) _ ?_ r1
    intro b
    exact mono_addRequirements ST _
  · rw [if_neg hd]
    exact rhLE_refl r1

theorem stable_addOpDecorateReqs (ST : SPIRVSubtarget) (MI : Instr) (idx : Nat) :
    StableOp (addOpDecorateReqs ST MI idx) := by
  unfold addOpDecorateReqs
  refine stable_withOperand MI idx _ ?_
  intro d
  refine stable_andThen ?_ (stable_addRequirements ST _ (rowToRequirement_alt_len _)) ?_
  · intro r1
    dsimp only
    by_cases hd : d = 11
    · rw [if_pos hd]
      refine mono_withOperand MI (idx + 1) _ ?_ r1
      intro b
      exact mono_addRequirements ST _
    · rw [if_neg hd]
      exact rhLE_refl r1
  · intro r1 r2 h12 r3 hle3
    dsimp only at h12 ⊢
    by_cases hd : d = 11
    · rw [if_pos hd] at h12 ⊢
      exact stable_withOperand MI (idx + 1)
        (fun b r1 => addRequirements ST (getBuiltInRequirements b) r1)
        (fun b => stable_addRequirements ST _ (rowToRequirement_alt_len _))
        r1 r2 h12 r3 hle3
    · rw [if_neg hd] at h12 ⊢

theorem nodup_addOpDecorateReqs (ST : SPIRVSubtarget) (MI : Instr) (idx : Nat) :
    NodupOp (addOpDecorateReqs ST MI idx) := by
  unfold addOpDecorateReqs
  refine nodup_withOperand MI idx _ ?_
  intro d
  refine nodup_andThen (nodup_addRequirements ST _) ?_
  intro r1 hc he
  dsimp only
  by_cases hd : d = 11
  · rw [if_pos hd]
    refine nodup_withOperand MI (idx + 1) _ ?_ r1 hc he
    intro b
    exact nodup_addRequirements ST _
  · rw [if_neg hd]
    exact ⟨hc, he⟩

theorem mono_ite (c : Prop) [Decidable c]
    (A B : RequirementHandler → ResolveResult) (hA : MonoOp A) (hB : MonoOp B) :
    MonoOp (fun r => if c then A r else B r) := by
  intro r
  show rhLE r (if c then A r else B r).2
  by_cases hc : c
  · rw [if_pos hc]
    exact hA r
  · rw [if_neg hc]
    exact hB r

theorem stable_ite (c : Prop) [Decidable c]
    (A B : RequirementHandler → ResolveResult) (hA : StableOp A) (hB : StableOp B) :
    StableOp (fun r => if c then A r else B r) := by
  intro r r' h r2 hle
  have h0 : (if c then A r else B r) = (none, r') := h
  show (if c then A r2 else B r2) = (none, r2)
  by_cases hc : c
  · rw [if_pos hc] at h0 ⊢
    exact hA r r' h0 r2 hle
  · rw [if_neg hc] at h0 ⊢
    exact hB r r' h0 r2 hle

theorem nodup_ite (c : Prop) [Decidable c]
    (A B : RequirementHandler → ResolveResult) (hA : NodupOp A) (hB : NodupOp B) :
    NodupOp (fun r => if c then A r else B r) := by
  intro r hc' he
  show (if c then A r else B r).2.caps.Nodup ∧ (if c then A r else B r).2.exts.Nodup
  by_cases hc : c
  · rw [if_pos hc]
    exact hA r hc' he
  · rw [if_neg hc]
    exact hB r hc' he

theorem mono_addVariablePtrInstrReqs (ST : SPIRVSubtarget)
    (defOpcode : Nat → Opcode) (MI : Instr) :
    MonoOp (addVariablePtrInstrReqs ST defOpcode MI) := by
  unfold addVariablePtrInstrReqs
  refine mono_ite _ _ _ ?_ (mono_const none)
  refine mono_withOperand MI 1 _ ?_
  intro t
  exact mono_ite _ _ _ (mono_addCapability 4442) (mono_const none)

theorem stable_addVariablePtrInstrReqs (ST : SPIRVSubtarget)
    (defOpcode : Nat → Opcode) (MI : Instr) :
    StableOp (addVariablePtrInstrReqs ST defOpcode MI) := by
  unfold addVariablePtrInstrReqs
  refine stable_ite _ _ _ ?_ stable_id
  refine stable_withOperand MI 1 _ ?_
  intro t
  exact stable_ite _ _ _ (stable_addCapability 4442) stable_id

theorem nodup_addVariablePtrInstrReqs (ST : SPIRVSubtarget)
    (defOpcode : Nat → Opcode) (MI : Instr) :
    NodupOp (addVariablePtrInstrReqs ST defOpcode MI) := by
  unfold addVariablePtrInstrReqs
  refine nodup_ite _ _ _ ?_ (nodup_const none)
  refine nodup_withOperand MI 1 _ ?_
  intro t
  exact nodup_ite _ _ _ (nodup_addCapability 4442) (nodup_const none)

/-- The kernel-flavored access-qualifier tail of the image rule, as a state
operation. -/
def imageKernelReqs (ST : SPIRVSubtarget) (MI : Instr)
    (r2 : RequirementHandler) : ResolveResult :=
  if isKernel ST then
    if MI.operands.length > 8 then
      withOperand MI 8 r2 fun accessQual =>
        if accessQual = 2 then
          addRequirements ST (getCapabilityRequirements 14) r2
        else addRequirements ST (getCapabilityRequirements 13) r2
    else addRequirements ST (getCapabilityRequirements 13) r2
  else (none, r2)

theorem mono_imageKernelReqs (ST : SPIRVSubtarget) (MI : Instr) :
    MonoOp (imageKernelReqs ST MI) := by
  unfold imageKernelReqs
  refine mono_ite _ _ _ ?_ (mono_const none)
  refine mono_ite _ _ _ ?_ (mono_addRequirements ST _)
  refine mono_withOperand MI 8 _ ?_
  intro aq
  exact mono_ite _ _ _ (mono_addRequirements ST _) (mono_addRequirements ST _)

theorem stable_imageKernelReqs (ST : SPIRVSubtarget) (MI : Instr) :
    StableOp (imageKernelReqs ST MI) := by
  unfold imageKernelReqs
  refine stable_ite _ _ _ ?_ stable_id
  refine stable_ite _ _ _ ?_
    (stable_addRequirements ST _ (getCapabilityRequirements_alt_len _))
  refine stable_withOperand MI 8 _ ?_
  intro aq
  exact stable_ite _ _ _
    (stable_addRequirements ST _ (getCapabilityRequirements_alt_len _))
    (stable_addRequirements ST _ (getCapabilityRequirements_alt_len _))

theorem nodup_imageKernelReqs (ST : SPIRVSubtarget) (MI : Instr) :
    NodupOp (imageKernelReqs ST MI) := by
  unfold imageKernelReqs
  refine nodup_ite _ _ _ ?_ (nodup_const none)
  refine nodup_ite _ _ _ ?_ (nodup_addRequirements ST _)
  refine nodup_withOperand MI 8 _ ?_
  intro aq
  exact nodup_ite _ _ _ (nodup_addRequirements ST _) (nodup_addRequirements ST _)

theorem addOpTypeImageReqs_eq (ST : SPIRVSubtarget) (MI : Instr) :
    addOpTypeImageReqs ST MI = fun r =>
      if MI.operands.length < 8 then (some Err.malformedInstruction, r)
      else
        withOperand MI 7 r fun imgFormatOp =>
        andThenR (addRequirements ST (getImageFormatRequirements imgFormatOp) r)
          fun r1 =>
          withOperand MI 4 r1 fun arrayedOp =>
          withOperand MI 5 r1 fun msOp =>
          withOperand MI 6 r1 fun sampledOp =>
          withOperand MI 2 r1 fun dim =>
          andThenR (addDimReqs ST dim (decide (arrayedOp = 1)) (decide (msOp = 1))
            (decide (sampledOp = 2)) r1) (imageKernelReqs ST MI) := rfl

theorem mono_addOpTypeImageReqs (ST : SPIRVSubtarget) (MI : Instr) :
    MonoOp (addOpTypeImageReqs ST MI) := by
  rw [addOpTypeImageReqs_eq]
  refine mono_ite _ _ _ (mono_const _) ?_
  refine mono_withOperand MI 7 _ ?_
  intro fmt
  refine mono_andThen (mono_addRequirements ST _) ?_
  refine mono_withOperand MI 4 _ ?_
  intro arrayedOp
  refine mono_withOperand MI 5 _ ?_
  intro msOp
  refine mono_withOperand MI 6 _ ?_
  intro sampledOp
  refine mono_withOperand MI 2 _ ?_
  intro dim
  exact mono_andThen (mono_addDimReqs ST dim _ _ _) (mono_imageKernelReqs ST MI)

theorem stable_addOpTypeImageReqs (ST : SPIRVSubtarget) (MI : Instr) :
    StableOp (addOpTypeImageReqs ST MI) := by
  rw [addOpTypeImageReqs_eq]
  refine stable_ite _ _ _ (stable_error _) ?_
  refine stable_withOperand MI 7 _ ?_
  intro fmt
  refine stable_andThen ?_ (stable_addRequirements ST _ (rowToRequirement_alt_len _)) ?_
  · refine mono_withOperand MI 4 _ ?_
    intro arrayedOp
    refine mono_withOperand MI 5 _ ?_
    intro msOp
    refine mono_withOperand MI 6 _ ?_
    intro sampledOp
    refine mono_withOperand MI 2 _ ?_
    intro dim
    exact mono_andThen (mono_addDimReqs ST dim _ _ _) (mono_imageKernelReqs ST MI)
  · refine stable_withOperand MI 4 _ ?_
    intro arrayedOp
    refine stable_withOperand MI 5 _ ?_
    intro msOp
    refine stable_withOperand MI 6 _ ?_
    intro sampledOp
    refine stable_withOperand MI 2 _ ?_
    intro dim
    exact stable_andThen (mono_imageKernelReqs ST MI)
      (stable_addDimReqs ST dim _ _ _) (stable_imageKernelReqs ST MI)

theorem nodup_addOpTypeImageReqs (ST : SPIRVSubtarget) (MI : Instr) :
    NodupOp (addOpTypeImageReqs ST MI) := by
  rw [addOpTypeImageReqs_eq]
  refine nodup_ite _ _ _ (nodup_const _) ?_
  refine nodup_withOperand MI 7 _ ?_
  intro fmt
  refine nodup_andThen (nodup_addRequirements ST _) ?_
  refine nodup_withOperand MI 4 _ ?_
  intro arrayedOp
  refine nodup_withOperand MI 5 _ ?_
  intro msOp
  refine nodup_withOperand MI 6 _ ?_
  intro sampledOp
  refine nodup_withOperand MI 2 _ ?_
  intro dim
  exact nodup_andThen (nodup_addDimReqs ST dim _ _ _) (nodup_imageKernelReqs ST MI)

/-- Requirement mapping is monotone: processing an instruction only grows the
accumulated capability and extension sets. -/
theorem mono_addInstrRequirements (ST : SPIRVSubtarget)
    (defOpcode : Nat → Opcode) (MI : Instr) :
    MonoOp (addInstrRequirements ST defOpcode MI) := by
  obtain ⟨op, ops⟩ := MI
  cases op
  case OpMemoryModel =>
    refine mono_withOperand _ 0 _ ?_
    intro addr
    refine mono_andThen (mono_addRequirements ST _) ?_
    refine mono_withOperand _ 1 _ ?_
    intro mem
    exact mono_addRequirements ST _
  case OpEntryPoint =>
    refine mono_withOperand _ 0 _ ?_
    intro exe
    exact mono_addRequirements ST _
  case OpExecutionMode =>
    refine mono_withOperand _ 1 _ ?_
    intro exe
    exact mono_addRequirements ST _
  case OpExecutionModeId =>
    refine mono_withOperand _ 1 _ ?_
    intro exe
    exact mono_addRequirements ST _
  case OpTypeMatrix => exact mono_addCapability 0
  case OpTypeInt =>
    refine mono_withOperand _ 1 _ ?_
    intro w
    exact mono_ite _ _ _ (mono_addCapability 11)
      (mono_ite _ _ _ (mono_addCapability 22)
        (mono_ite _ _ _ (mono_addCapability 39) (mono_const none)))
  case OpTypeFloat =>
    refine mono_withOperand _ 1 _ ?_
    intro w
    exact mono_ite _ _ _ (mono_addCapability 10)
      (mono_ite _ _ _ (mono_addCapability 9) (mono_const none))
  case OpTypeVector =>
    refine mono_withOperand _ 2 _ ?_
    intro n
    exact mono_ite _ _ _ (mono_addCapability 7) (mono_const none)
  case OpTypePointer =>
    refine mono_withOperand _ 1 _ ?_
    intro sc
    exact mono_addRequirements ST _
  case OpTypeRuntimeArray => exact mono_addCapability 1
  case OpTypeOpaque => exact mono_addCapability 6
  case OpTypeEvent => exact mono_addCapability 6
  case OpTypePipe => exact mono_addCapability 17
  case OpTypeReserveId => exact mono_addCapability 17
  case OpTypeDeviceEvent => exact mono_addCapability 19
  case OpTypeQueue => exact mono_addCapability 19
  case OpDecorate => exact mono_addOpDecorateReqs ST _ 1
  case OpDecorateId => exact mono_addOpDecorateReqs ST _ 1
  case OpDecorateString => exact mono_addOpDecorateReqs ST _ 1
  case OpMemberDecorate => exact mono_addOpDecorateReqs ST _ 2
  case OpMemberDecorateString => exact mono_addOpDecorateReqs ST _ 2
  case OpInBoundsPtrAccessChain => exact mono_addCapability 4
  case OpConstantSampler => exact mono_addCapability 20
  case OpTypeImage => exact mono_addOpTypeImageReqs ST _
  case OpTypeSampler => exact mono_addCapability 13
  case OpTypeForwardPointer =>
    exact mono_ite _ _ _ (mono_addCapability 4) (mono_addCapability 5347)
  case OpSelect => exact mono_addVariablePtrInstrReqs ST defOpcode _
  case OpPhi => exact mono_addVariablePtrInstrReqs ST defOpcode _
  case OpFunctionCall => exact mono_addVariablePtrInstrReqs ST defOpcode _
  case OpPtrAccessChain => exact mono_addVariablePtrInstrReqs ST defOpcode _
  case OpLoad => exact mono_addVariablePtrInstrReqs ST defOpcode _
  case OpConstantNull => exact mono_addVariablePtrInstrReqs ST defOpcode _
  case OpOther => exact mono_const none

/-- Requirement mapping is stable: after a successful run, re-running the same
instruction on any state at least as large changes nothing. -/
theorem stable_addInstrRequirements (ST : SPIRVSubtarget)
    (defOpcode : Nat → Opcode) (MI : Instr) :
    StableOp (addInstrRequirements ST defOpcode MI) := by
  obtain ⟨op, ops⟩ := MI
  cases op
  case OpMemoryModel =>
    refine stable_withOperand _ 0 _ ?_
    intro addr
    refine stable_andThen ?_ (stable_addRequirements ST _ (rowToRequirement_alt_len _)) ?_
    · refine mono_withOperand _ 1 _ ?_
      intro mem
      exact mono_addRequirements ST _
    · refine stable_withOperand _ 1 _ ?_
      intro mem
      exact stable_addRequirements ST _ (rowToRequirement_alt_len _)
  case OpEntryPoint =>
    refine stable_withOperand _ 0 _ ?_
    intro exe
    exact stable_addRequirements ST _ (rowToRequirement_alt_len _)
  case OpExecutionMode =>
    refine stable_withOperand _ 1 _ ?_
    intro exe
    exact stable_addRequirements ST _ (rowToRequirement_alt_len _)
  case OpExecutionModeId =>
    refine stable_withOperand _ 1 _ ?_
    intro exe
    exact stable_addRequirements ST _ (rowToRequirement_alt_len _)
  case OpTypeMatrix => exact stable_addCapability 0
  case OpTypeInt =>
    refine stable_withOperand _ 1 _ ?_
    intro w
    exact stable_ite _ _ _ (stable_addCapability 11)
      (stable_ite _ _ _ (stable_addCapability 22)
        (stable_ite _ _ _ (stable_addCapability 39) stable_id))
  case OpTypeFloat =>
    refine stable_withOperand _ 1 _ ?_
    intro w
    exact stable_ite _ _ _ (stable_addCapability 10)
      (stable_ite _ _ _ (stable_addCapability 9) stable_id)
  case OpTypeVector =>
    refine stable_withOperand _ 2 _ ?_
    intro n
    exact stable_ite _ _ _ (stable_addCapability 7) stable_id
  case OpTypePointer =>
    refine stable_withOperand _ 1 _ ?_
    intro sc
    exact stable_addRequirements ST _ (rowToRequirement_alt_len _)
  case OpTypeRuntimeArray => exact stable_addCapability 1
  case OpTypeOpaque => exact stable_addCapability 6
  case OpTypeEvent => exact stable_addCapability 6
  case OpTypePipe => exact stable_addCapability 17
  case OpTypeReserveId => exact stable_addCapability 17
  case OpTypeDeviceEvent => exact stable_addCapability 19
  case OpTypeQueue => exact stable_addCapability 19
  case OpDecorate => exact stable_addOpDecorateReqs ST _ 1
  case OpDecorateId => exact stable_addOpDecorateReqs ST _ 1
  case OpDecorateString => exact stable_addOpDecorateReqs ST _ 1
  case OpMemberDecorate => exact stable_addOpDecorateReqs ST _ 2
  case OpMemberDecorateString => exact stable_addOpDecorateReqs ST _ 2
  case OpInBoundsPtrAccessChain => exact stable_addCapability 4
  case OpConstantSampler => exact stable_addCapability 20
  case OpTypeImage => exact stable_addOpTypeImageReqs ST _
  case OpTypeSampler => exact stable_addCapability 13
  case OpTypeForwardPointer =>
    exact stable_ite _ _ _ (stable_addCapability 4) (stable_addCapability 5347)
  case OpSelect => exact stable_addVariablePtrInstrReqs ST defOpcode _
  case OpPhi => exact stable_addVariablePtrInstrReqs ST defOpcode _
  case OpFunctionCall => exact stable_addVariablePtrInstrReqs ST defOpcode _
  case OpPtrAccessChain => exact stable_addVariablePtrInstrReqs ST defOpcode _
  case OpLoad => exact stable_addVariablePtrInstrReqs ST defOpcode _
  case OpConstantNull => exact stable_addVariablePtrInstrReqs ST defOpcode _
  case OpOther => exact stable_id

/-- Requirement mapping never creates duplicate entries in either set. -/
theorem nodup_addInstrRequirements (ST : SPIRVSubtarget)
    (defOpcode : Nat → Opcode) (MI : Instr) :
    NodupOp (addInstrRequirements ST defOpcode MI) := by
  obtain ⟨op, ops⟩ := MI
  cases op
  case OpMemoryModel =>
    refine nodup_withOperand _ 0 _ ?_
    intro addr
    refine nodup_andThen (nodup_addRequirements ST _) ?_
    refine nodup_withOperand _ 1 _ ?_
    intro mem
    exact nodup_addRequirements ST _
  case OpEntryPoint =>
    refine nodup_withOperand _ 0 _ ?_
    intro exe
    exact nodup_addRequirements ST _
  case OpExecutionMode =>
    refine nodup_withOperand _ 1 _ ?_
    intro exe
    exact nodup_addRequirements ST _
  case OpExecutionModeId =>
    refine nodup_withOperand _ 1 _ ?_
    intro exe
    exact nodup_addRequirements ST _
  case OpTypeMatrix => exact nodup_addCapability 0
  case OpTypeInt =>
    refine nodup_withOperand _ 1 _ ?_
    intro w
    exact nodup_ite _ _ _ (nodup_addCapability 11)
      (nodup_ite _ _ _ (nodup_addCapability 22)
        (nodup_ite _ _ _ (nodup_addCapability 39) (nodup_const none)))
  case OpTypeFloat =>
    refine nodup_withOperand _ 1 _ ?_
    intro w
    exact nodup_ite _ _ _ (nodup_addCapability 10)
      (nodup_ite _ _ _ (nodup_addCapability 9) (nodup_const none))
  case OpTypeVector =>
    refine nodup_withOperand _ 2 _ ?_
    intro n
    exact nodup_ite _ _ _ (nodup_addCapability 7) (nodup_const none)
  case OpTypePointer =>
    refine nodup_withOperand _ 1 _ ?_
    intro sc
    exact nodup_addRequirements ST _
  case OpTypeRuntimeArray => exact nodup_addCapability 1
  case OpTypeOpaque => exact nodup_addCapability 6
  case OpTypeEvent => exact nodup_addCapability 6
  case OpTypePipe => exact nodup_addCapability 17
  case OpTypeReserveId => exact nodup_addCapability 17
  case OpTypeDeviceEvent => exact nodup_addCapability 19
  case OpTypeQueue => exact nodup_addCapability 19
  case OpDecorate => exact nodup_addOpDecorateReqs ST _ 1
  case OpDecorateId => exact nodup_addOpDecorateReqs ST _ 1
  case OpDecorateString => exact nodup_addOpDecorateReqs ST _ 1
  case OpMemberDecorate => exact nodup_addOpDecorateReqs ST _ 2
  case OpMemberDecorateString => exact nodup_addOpDecorateReqs ST _ 2
  case OpInBoundsPtrAccessChain => exact nodup_addCapability 4
  case OpConstantSampler => exact nodup_addCapability 20
  case OpTypeImage => exact nodup_addOpTypeImageReqs ST _
  case OpTypeSampler => exact nodup_addCapability 13
  case OpTypeForwardPointer =>
    exact nodup_ite _ _ _ (nodup_addCapability 4) (nodup_addCapability 5347)
  case OpSelect => exact nodup_addVariablePtrInstrReqs ST defOpcode _
  case OpPhi => exact nodup_addVariablePtrInstrReqs ST defOpcode _
  case OpFunctionCall => exact nodup_addVariablePtrInstrReqs ST defOpcode _
  case OpPtrAccessChain => exact nodup_addVariablePtrInstrReqs ST defOpcode _
  case OpLoad => exact nodup_addVariablePtrInstrReqs ST defOpcode _
  case OpConstantNull => exact nodup_addVariablePtrInstrReqs ST defOpcode _
  case OpOther => exact nodup_const none

/-- C6: processing the same instruction twice through the requirement mapper
produces the same final capability and extension sets (including insertion
order) as processing it once; the accumulated sets grow by monotone union,
and no duplicate entries are created. -/
theorem claim6_idempotent (ST : SPIRVSubtarget) (defOpcode : Nat → Opcode)
    (MI : Instr) (acc : ResolveResult) :
    processInstr ST defOpcode (processInstr ST defOpcode acc MI) MI
      = processInstr ST defOpcode acc MI
    ∧ rhLE acc.2 (processInstr ST defOpcode acc MI).2
    ∧ (acc.2.caps.Nodup → acc.2.exts.Nodup →
        (processInstr ST defOpcode acc MI).2.caps.Nodup
        ∧ (processInstr ST defOpcode acc MI).2.exts.Nodup) := by
  obtain ⟨e?, r⟩ := acc
  cases e? with
  | some err => exact ⟨rfl, rhLE_refl r, fun hc he => ⟨hc, he⟩⟩
  | none =>
    have hm := mono_addInstrRequirements ST defOpcode MI r
    have hn := nodup_addInstrRequirements ST defOpcode MI r
    rcases hop : addInstrRequirements ST defOpcode MI r with ⟨e2, r2⟩
    have hp1 : processInstr ST defOpcode (none, r) MI = (e2, r2) := hop
    rw [hop] at hm hn
    refine ⟨?_, ?_, ?_⟩
    · rw [hp1]
      cases e2 with
      | some err2 => rfl
      | none =>
        exact stable_addInstrRequirements ST defOpcode MI r r2 hop r2 (rhLE_refl r2)
    · rw [hp1]
      exact hm
    · intro hc he
      rw [hp1]
      exact hn hc he

theorem claim6_idempotent_witness :
    processInstr (⟨false, false, true, 0, 0, 0, true, true, ⟨[], []⟩, []⟩ : SPIRVSubtarget)
        (fun _ => Opcode.OpOther)
        (processInstr ⟨false, false, true, 0, 0, 0, true, true, ⟨[], []⟩, []⟩
          (fun _ => Opcode.OpOther) (none, ⟨[], []⟩) ⟨Opcode.OpTypeInt, [1, 64, 0]⟩)
        ⟨Opcode.OpTypeInt, [1, 64, 0]⟩
      = processInstr ⟨false, false, true, 0, 0, 0, true, true, ⟨[], []⟩, []⟩
          (fun _ => Opcode.OpOther) (none, ⟨[], []⟩) ⟨Opcode.OpTypeInt, [1, 64, 0]⟩
    ∧ rhLE ((none, (⟨[], []⟩ : RequirementHandler)) : ResolveResult).2
        (processInstr ⟨false, false, true, 0, 0, 0, true, true, ⟨[], []⟩, []⟩
          (fun _ => Opcode.OpOther) (none, ⟨[], []⟩) ⟨Opcode.OpTypeInt, [1, 64, 0]⟩).2
    ∧ (((none, (⟨[], []⟩ : RequirementHandler)) : ResolveResult).2.caps.Nodup →
        ((none, (⟨[], []⟩ : RequirementHandler)) : ResolveResult).2.exts.Nodup →
        (processInstr ⟨false, false, true, 0, 0, 0, true, true, ⟨[], []⟩, []⟩
          (fun _ => Opcode.OpOther) (none, ⟨[], []⟩) ⟨Opcode.OpTypeInt, [1, 64, 0]⟩).2.caps.Nodup
        ∧ (processInstr ⟨false, false, true, 0, 0, 0, true, true, ⟨[], []⟩, []⟩
          (fun _ => Opcode.OpOther) (none, ⟨[], []⟩) ⟨Opcode.OpTypeInt, [1, 64, 0]⟩).2.exts.Nodup) :=
  claim6_idempotent ⟨false, false, true, 0, 0, 0, true, true, ⟨[], []⟩, []⟩
    (fun _ => Opcode.OpOther) ⟨Opcode.OpTypeInt, [1, 64, 0]⟩ (none, ⟨[], []⟩)

end SPIRV
